import Mathlib

/-!
# RTEMS: mutex flush, mutex protocol and the Cirrus frame buffer driver

A shallow embedding of

* `cpukit/score/src/coremutexflush.c` (`_CORE_mutex_Flush`), together with the
  wait queue, thread state machine and mutex operations it belongs to, and
* `c/src/lib/libbsp/i386/pc386/console/fb_cirrus.c` (the frame buffer driver
  entry points and their helpers),

followed by the properties proved about them.
-/

namespace Rtems

/-! ## Part 1: data model of the synchronisation core -/

/-- Identifier of a kernel object; threads are referred to by identifier. -/
abbrev Objects_Id := Nat

/-- Modelled from the spec: the thread states of section 4.3 (the thread
header is absent from the sources). -/
inductive States_Control
  | Ready
  | BlockedOnResource
  | BlockedWithTimeout
  | Dormant
  deriving DecidableEq, Repr

/-- Modelled from the spec: the attributes of a thread in section 3 (the
declaration of `Thread_Control` is absent from the sources). A larger
number is a higher priority, as in scenario B. -/
structure Thread_Control where
  /-- base priority -/
  real_priority : Nat
  /-- effective priority, possibly raised above the base priority -/
  current_priority : Nat
  current_state : States_Control
  /-- back-reference to the wait queue the thread is blocked on -/
  Wait_queue : Option Objects_Id
  /-- pending wait-return status -/
  Wait_return_code : Nat
  /-- the thread is blocked remotely (multiprocessor case) -/
  is_remote : Bool
  deriving DecidableEq, Repr

/-- Modelled from the spec: the discipline tag of a wait queue (section 3), FIFO
or priority-ordered. -/
inductive Thread_queue_Disciplines
  | FIFO
  | PRIORITY
  deriving DecidableEq, Repr

/-- Modelled from the spec: the wait queue of section 3, an ordered sequence
of thread references with a discipline tag (the declaration of
`Thread_queue_Control` is absent from the sources). -/
structure Thread_queue_Control where
  /-- identifier threads use as their back-reference -/
  id : Objects_Id
  discipline : Thread_queue_Disciplines
  /-- the blocked threads, head first -/
  waiters : List Objects_Id
  deriving DecidableEq, Repr

/-- Modelled from the spec: the locking protocol of a mutex (section 3): plain,
inherit-priority or ceiling-priority. -/
inductive CORE_mutex_Disciplines
  | PLAIN
  | INHERIT
  | CEILING
  deriving DecidableEq, Repr

/-- Modelled from the spec: the mutex object of section 3 with its creation
time configuration of section 6 (the declaration of `CORE_mutex_Control`
is absent from the sources); `Wait_queue` is the member the source
of `_CORE_mutex_Flush` names. -/
structure CORE_mutex_Control where
  Wait_queue : Thread_queue_Control
  /-- owner, none if unlocked -/
  holder : Option Objects_Id
  /-- nesting depth, 0 if not held -/
  nest_count : Nat
  protocol : CORE_mutex_Disciplines
  priority_ceiling : Nat
  /-- recursion policy: nested acquire allowed or forbidden -/
  nesting_allowed : Bool
  deriving DecidableEq, Repr

/-- What a flush does to one waiter, as seen from outside. -/
inductive Flush_event
  /-- local transition to ready, with the status handed to the thread -/
  | ready (t : Objects_Id) (status : Nat)
  /-- the remote extraction callout was invoked on the thread -/
  | remote_extract (t : Objects_Id)
  deriving DecidableEq, Repr

/-- The callout type: a procedure taking the thread, whose effect lies on the
remote side, modelled as a change of the remote state `σ`. -/
abbrev Thread_queue_Flush_callout (σ : Type) := Objects_Id → σ → σ

/-- The state a flush runs in: the thread table, the log of wake-ups performed
so far, and the state of the remote side. -/
structure World (σ : Type) where
  threads : Objects_Id → Thread_Control
  events : List Flush_event
  remote_side : σ

/-- Modelled from the spec: the treatment of one waiter by `flush` in section
4.2: (a) clear the back-reference, (b) transition to ready, (c) record the
status; for a remotely blocked thread the callout is invoked instead of the
local transition. -/
def flush_one {σ : Type} (callout : Thread_queue_Flush_callout σ) (status : Nat)
    (w : World σ) (t : Objects_Id) : World σ :=
  let th := w.threads t
  let th1 : Thread_Control := { th with Wait_queue := none, Wait_return_code := status }
  if th.is_remote then
    { threads := Function.update w.threads t th1
      events := w.events ++ [Flush_event.remote_extract t]
      remote_side := callout t w.remote_side }
  else
    { threads := Function.update w.threads t { th1 with current_state := States_Control.Ready }
      events := w.events ++ [Flush_event.ready t status]
      remote_side := w.remote_side }

/-- Modelled from the spec: the loop of `flush`: take the head of the queue
and treat it, until the queue is empty; returns what is left of the queue. -/
def flush_loop {σ : Type} (callout : Thread_queue_Flush_callout σ) (status : Nat) :
    List Objects_Id → World σ → List Objects_Id × World σ
  | [], w => ([], w)
  | t :: rest, w => flush_loop callout status rest (flush_one callout status w t)

/-- Modelled from the spec: `_Thread_queue_Flush` is not among the sources; this
is `flush(wait_queue, status, callout)` of sections 4.2 and 6. -/
def _Thread_queue_Flush {σ : Type} (the_thread_queue : Thread_queue_Control)
    (remote_extract_callout : Thread_queue_Flush_callout σ) (status : Nat)
    (w : World σ) : Thread_queue_Control × World σ :=
  let r := flush_loop remote_extract_callout status the_thread_queue.waiters w
  ({ the_thread_queue with waiters := r.1 }, r.2)

/-- The source function `_CORE_mutex_Flush` of coremutexflush.c: one call of
`_Thread_queue_Flush` on the address of the mutex's own `Wait_queue`, callout
and status passed on. -/
def _CORE_mutex_Flush {σ : Type} (the_mutex : CORE_mutex_Control)
    (remote_extract_callout : Thread_queue_Flush_callout σ) (status : Nat)
    (w : World σ) : CORE_mutex_Control × World σ :=
  let r := _Thread_queue_Flush the_mutex.Wait_queue remote_extract_callout status w
  ({ the_mutex with Wait_queue := r.1 }, r.2)

/-- The events a call added to the log. -/
def new_events {σ : Type} (before after : World σ) : List Flush_event :=
  after.events.drop before.events.length

/-- Number of local ready transitions among some events. -/
def ready_transitions (evs : List Flush_event) : Nat :=
  evs.countP (fun e => match e with
    | Flush_event.ready _ _ => true
    | Flush_event.remote_extract _ => false)

/-- Number of callout invocations on thread `t` among some events. -/
def callout_invocations (t : Objects_Id) (evs : List Flush_event) : Nat :=
  evs.count (Flush_event.remote_extract t)

/-- Number of callout invocations among some events. -/
def remote_extractions (evs : List Flush_event) : Nat :=
  evs.countP (fun e => match e with
    | Flush_event.ready _ _ => false
    | Flush_event.remote_extract _ => true)

/-- The invariant of the mutex object: owner is none iff nesting depth is 0. -/
def CORE_mutex_Control.owner_iff_nesting (m : CORE_mutex_Control) : Prop :=
  m.holder = none ↔ m.nest_count = 0

/-- The record of a waiter after a flush with `status` has treated it. -/
def flushed (status : Nat) (th : Thread_Control) : Thread_Control :=
  if th.is_remote then
    { th with Wait_queue := none, Wait_return_code := status }
  else
    { th with Wait_queue := none, Wait_return_code := status,
              current_state := States_Control.Ready }

/-- The wake-up a flush with `status` performs for waiter `t`. -/
def wake_event (threads : Objects_Id → Thread_Control) (status : Nat)
    (t : Objects_Id) : Flush_event :=
  if (threads t).is_remote then Flush_event.remote_extract t
  else Flush_event.ready t status

/-- The remotely blocked threads among some waiters, in queue order. -/
def remote_waiters (threads : Objects_Id → Thread_Control)
    (waiters : List Objects_Id) : List Objects_Id :=
  waiters.filter (fun t => (threads t).is_remote)

/-- The locally blocked threads among some waiters, in queue order. -/
def local_waiters (threads : Objects_Id → Thread_Control)
    (waiters : List Objects_Id) : List Objects_Id :=
  waiters.filter (fun t => !(threads t).is_remote)

/-- Threads for examples: every thread is blocked on queue 100 with base and
effective priority 10; thread 3 is blocked remotely, the others locally. -/
def example_threads : Objects_Id → Thread_Control :=
  fun t =>
    { real_priority := 10
      current_priority := 10
      current_state := States_Control.BlockedOnResource
      Wait_queue := some 100
      Wait_return_code := 0
      is_remote := t == 3 }

/-- A plain FIFO mutex for examples with the given waiters and owner. -/
def example_mutex (waiters : List Objects_Id) (holder : Option Objects_Id)
    (nest_count : Nat) : CORE_mutex_Control :=
  { Wait_queue :=
      { id := 100, discipline := Thread_queue_Disciplines.FIFO, waiters := waiters }
    holder := holder
    nest_count := nest_count
    protocol := CORE_mutex_Disciplines.PLAIN
    priority_ceiling := 0
    nesting_allowed := true }

/-- A callout for examples: the remote side keeps the list of the threads it
was invoked on. -/
def example_callout : Thread_queue_Flush_callout (List Objects_Id) :=
  fun t log => log ++ [t]

/-- A world for examples: the example threads, nothing logged yet. -/
def example_world : World (List Objects_Id) :=
  { threads := example_threads, events := [], remote_side := [] }

/-! ## Part 2: the mutex operations of section 4.4 -/

/-- Modelled from the spec: the wait-return status of a thread that was handed
the mutex (section 4.3, granted). -/
def status_granted : Nat := 0

/-- Modelled from the spec: the wait-return status of a thread whose bounded
wait expired (section 4.3, timed-out). -/
def status_timed_out : Nat := 1

/-- Modelled from the spec: the result `acquire` gives its caller at once
(sections 6 and 7); `Blocked` stands for the caller being suspended, its
result arriving as wait-return status. -/
inductive Acquire_result
  | Granted
  | SelfDeadlock
  | Blocked
  deriving DecidableEq, Repr

/-- Modelled from the spec: the result of `release` (section 6). -/
inductive Release_result
  | Ok
  | NotOwner
  deriving DecidableEq, Repr

/-- One mutex with the threads of the system. -/
structure System where
  threads : Objects_Id → Thread_Control
  mutex : CORE_mutex_Control

/-- Modelled from the spec: `transition_to_blocked` of the thread state
machine (section 4.3): blocked on the resource, with the timeout state when
the call specified a bound; the back-reference names the queue. -/
def transition_to_blocked (th : Thread_Control) (queue : Objects_Id)
    (timeout : Option Nat) : Thread_Control :=
  { th with
    current_state := match timeout with
      | none => States_Control.BlockedOnResource
      | some _ => States_Control.BlockedWithTimeout
    Wait_queue := some queue }

/-- Modelled from the spec: `transition_to_ready(thread, status)` of section
4.3: the thread is ready, has no back-reference and carries the status. -/
def transition_to_ready (th : Thread_Control) (status : Nat) : Thread_Control :=
  { th with
    current_state := States_Control.Ready
    Wait_queue := none
    Wait_return_code := status }

/-- Modelled from the spec: insertion under the priority discipline (section
3): before the first thread of strictly lower priority, so that equal
priorities keep their block order. -/
def insert_by_priority (prio : Objects_Id → Nat) (t : Objects_Id) :
    List Objects_Id → List Objects_Id
  | [] => [t]
  | h :: rest =>
    if prio h < prio t then t :: h :: rest
    else h :: insert_by_priority prio t rest

/-- Modelled from the spec: `enqueue(thread, discipline)` of section 4.2. -/
def enqueue (prio : Objects_Id → Nat) (q : Thread_queue_Control) (t : Objects_Id) :
    Thread_queue_Control :=
  match q.discipline with
  | Thread_queue_Disciplines.FIFO => { q with waiters := q.waiters ++ [t] }
  | Thread_queue_Disciplines.PRIORITY =>
    { q with waiters := insert_by_priority prio t q.waiters }

/-- Modelled from the spec: `extract_one` of section 4.2: removes and returns
the head thread, none if the queue is empty. -/
def extract_one (q : Thread_queue_Control) : Option Objects_Id × Thread_queue_Control :=
  match q.waiters with
  | [] => (none, q)
  | t :: rest => (some t, { q with waiters := rest })

/-- Modelled from the spec: the priority adjustment of `acquire` when the
mutex is locked by another thread (section 4.4): under the inheritance
protocol the current owner `o` is raised to the maximum of its effective
priority and the caller's priority, under the other protocols nothing
changes. -/
def raise_owner (protocol : CORE_mutex_Disciplines)
    (threads : Objects_Id → Thread_Control) (o t : Objects_Id) :
    Objects_Id → Thread_Control :=
  match protocol with
  | CORE_mutex_Disciplines.INHERIT =>
    Function.update threads o
      { threads o with
        current_priority := max (threads o).current_priority (threads t).current_priority }
  | _ => threads

/-- Modelled from the spec: the priority adjustment of `acquire` on an
unlocked mutex (section 4.4): ceiling raises the new owner to the ceiling,
inheritance and plain do nothing yet. -/
def apply_ceiling (m : CORE_mutex_Control) (th : Thread_Control) : Thread_Control :=
  match m.protocol with
  | CORE_mutex_Disciplines.CEILING =>
    { th with current_priority := max th.current_priority m.priority_ceiling }
  | _ => th

/-- Modelled from the spec: `acquire(thread, protocol_params, optional_timeout)`
of section 4.4. -/
def acquire (t : Objects_Id) (timeout : Option Nat) (s : System) :
    Acquire_result × System :=
  match s.mutex.holder with
  | none =>
    (Acquire_result.Granted,
      { threads := Function.update s.threads t (apply_ceiling s.mutex (s.threads t))
        mutex := { s.mutex with holder := some t, nest_count := 1 } })
  | some o =>
    if o = t then
      if s.mutex.nesting_allowed then
        (Acquire_result.Granted,
          { s with mutex := { s.mutex with nest_count := s.mutex.nest_count + 1 } })
      else
        (Acquire_result.SelfDeadlock, s)
    else
      let threads1 := raise_owner s.mutex.protocol s.threads o t
      let q := enqueue (fun x => (threads1 x).current_priority) s.mutex.Wait_queue t
      (Acquire_result.Blocked,
        { threads := Function.update threads1 t
            (transition_to_blocked (threads1 t) s.mutex.Wait_queue.id timeout)
          mutex := { s.mutex with Wait_queue := q } })

/-- The highest among the priority `start` and the effective priorities of the
threads of `waiters`. -/
def highest_priority (threads : Objects_Id → Thread_Control) (start : Nat)
    (waiters : List Objects_Id) : Nat :=
  waiters.foldl (fun p h => max p (threads h).current_priority) start

/-- Modelled from the spec: the priority the new owner `w` has when `release`
transfers ownership to it while `rest` stays blocked. The invariants of the
mutex (section 3) hold for every owner: under the inheritance protocol the
owner is at least as high as every blocked waiter (the holder assumes the
priority of the highest-priority waiter, glossary), under the ceiling
protocol at least as high as the ceiling. -/
def hand_over_priority (m : CORE_mutex_Control) (threads : Objects_Id → Thread_Control)
    (w : Objects_Id) (rest : List Objects_Id) : Thread_Control :=
  match m.protocol with
  | CORE_mutex_Disciplines.INHERIT =>
    { threads w with
      current_priority := highest_priority threads (threads w).current_priority rest }
  | _ => apply_ceiling m (threads w)

/-- Modelled from the spec: `release(thread)` of section 4.4. With one mutex in
the system the un-boosted value of the releasing thread is its base
priority. -/
def release (t : Objects_Id) (s : System) : Release_result × System :=
  if s.mutex.holder = some t then
    let n := s.mutex.nest_count - 1
    if 0 < n then
      (Release_result.Ok, { s with mutex := { s.mutex with nest_count := n } })
    else
      let threads1 := Function.update s.threads t
        { s.threads t with current_priority := (s.threads t).real_priority }
      match extract_one s.mutex.Wait_queue with
      | (none, q) =>
        (Release_result.Ok,
          { threads := threads1
            mutex := { s.mutex with Wait_queue := q, holder := none, nest_count := 0 } })
      | (some w, q) =>
        (Release_result.Ok,
          { threads := Function.update threads1 w
              (transition_to_ready (hand_over_priority s.mutex threads1 w q.waiters)
                status_granted)
            mutex := { s.mutex with Wait_queue := q, holder := some w, nest_count := 1 } })
  else
    (Release_result.NotOwner, s)

/-- Modelled from the spec: expiry of the timer of a bounded acquire (section
5): the thread, if still waiting with a bound, leaves the queue and becomes
ready with the timeout status. -/
def timer_expiry (t : Objects_Id) (s : System) : System :=
  if t ∈ s.mutex.Wait_queue.waiters ∧
      (s.threads t).current_state = States_Control.BlockedWithTimeout then
    { threads := Function.update s.threads t
        (transition_to_ready (s.threads t) status_timed_out)
      mutex := { s.mutex with
        Wait_queue := { s.mutex.Wait_queue with
          waiters := s.mutex.Wait_queue.waiters.erase t } } }
  else s

/-- The operations that can occur on a mutex. -/
inductive Mutex_op
  | acquire (t : Objects_Id) (timeout : Option Nat)
  | release (t : Objects_Id)
  | timer_expiry (t : Objects_Id)
  deriving DecidableEq, Repr

/-- One operation. Only a ready thread runs, so an acquire or release named
for a thread that is not ready does not take place. -/
def step (s : System) : Mutex_op → System
  | Mutex_op.acquire t timeout =>
    if (s.threads t).current_state = States_Control.Ready then (acquire t timeout s).2 else s
  | Mutex_op.release t =>
    if (s.threads t).current_state = States_Control.Ready then (release t s).2 else s
  | Mutex_op.timer_expiry t => timer_expiry t s

/-- A sequence of operations, first to last. -/
def run (s : System) (ops : List Mutex_op) : System :=
  ops.foldl step s

/-- Modelled from the spec: a mutex as created (section 3, lifecycle): unlocked,
with an empty wait queue, discipline, protocol, ceiling and recursion policy
fixed from then on. -/
def created (threads : Objects_Id → Thread_Control) (queue_id : Objects_Id)
    (discipline : Thread_queue_Disciplines) (protocol : CORE_mutex_Disciplines)
    (ceiling : Nat) (nesting_allowed : Bool) : System :=
  { threads := threads
    mutex :=
      { Wait_queue := { id := queue_id, discipline := discipline, waiters := [] }
        holder := none
        nest_count := 0
        protocol := protocol
        priority_ceiling := ceiling
        nesting_allowed := nesting_allowed } }

/-- A thread table for examples: thread `t` has base and effective priority
`prio t`, is ready and local. -/
def ready_threads (prio : Objects_Id → Nat) : Objects_Id → Thread_Control :=
  fun t =>
    { real_priority := prio t
      current_priority := prio t
      current_state := States_Control.Ready
      Wait_queue := none
      Wait_return_code := 0
      is_remote := false }

/-- The state of a mutex is well formed when the waiters are blocked, each
appears once, the owner is not among them, and an unlocked mutex has no
waiter. -/
structure Well_formed (s : System) : Prop where
  waiters_blocked : ∀ x ∈ s.mutex.Wait_queue.waiters,
    (s.threads x).current_state ≠ States_Control.Ready
  waiters_nodup : s.mutex.Wait_queue.waiters.Nodup
  holder_not_waiting : ∀ o, s.mutex.holder = some o → o ∉ s.mutex.Wait_queue.waiters
  unlocked_empty : s.mutex.holder = none → s.mutex.Wait_queue.waiters = []

/-- The threads an operation hands the mutex to, as the threads themselves see
it: the waiters of the state before that were blocked and are ready
afterwards with the wait-return status granted. -/
def handed_over (before after : System) : List Objects_Id :=
  before.mutex.Wait_queue.waiters.filter (fun w =>
    decide ((before.threads w).current_state ≠ States_Control.Ready) &&
    (decide ((after.threads w).current_state = States_Control.Ready) &&
      decide ((after.threads w).Wait_return_code = status_granted)))

/-- The grants outstanding after one operation, kept from what the operation
shows its callers and not from the owner field: every acquire that returns
Granted gives its caller one grant, every release that returns Ok takes one
grant of its caller back, and every waiter made ready with the granted status
has one grant. -/
def grants_step (s : System) (op : Mutex_op) (grants : List Objects_Id) : List Objects_Id :=
  handed_over s (step s op) ++
    match op with
    | Mutex_op.acquire t timeout =>
      if (s.threads t).current_state = States_Control.Ready ∧
          (acquire t timeout s).1 = Acquire_result.Granted then t :: grants
      else grants
    | Mutex_op.release t =>
      if (s.threads t).current_state = States_Control.Ready ∧
          (release t s).1 = Release_result.Ok then grants.erase t
      else grants
    | Mutex_op.timer_expiry _ => grants

/-- The grants outstanding after a sequence of operations from state `s` with
the grants `grants` outstanding at its start. -/
def outstanding_grants (s : System) : List Mutex_op → List Objects_Id → List Objects_Id
  | [], grants => grants
  | op :: rest, grants => outstanding_grants (step s op) rest (grants_step s op grants)

/-- The grants the owner field and the nesting depth stand for: as many grants
of the owner as the nesting depth, none if the mutex is unlocked. -/
def owner_grants (m : CORE_mutex_Control) : List Objects_Id :=
  match m.holder with
  | none => []
  | some h => List.replicate m.nest_count h

/-- Priorities for examples: thread 1 has priority 10, thread 2 priority 5,
thread 3 priority 90, every other thread priority 1. -/
def example_priorities : Objects_Id → Nat :=
  fun t => if t = 1 then 10 else if t = 2 then 5 else if t = 3 then 90 else 1

/-- An inherit-protocol mutex for examples, over ready threads with the
example priorities. -/
def example_system (discipline : Thread_queue_Disciplines) : System :=
  created (ready_threads example_priorities) 100 discipline
    CORE_mutex_Disciplines.INHERIT 0 true

/-- Thread 1 (priority 10) acquires, thread 2 (priority 5) and then thread 3
(priority 90) block, thread 1 releases. -/
def example_ops : List Mutex_op :=
  [Mutex_op.acquire 1 none, Mutex_op.acquire 2 none, Mutex_op.acquire 3 none,
   Mutex_op.release 1]

/-- Thread 1 acquires twice, thread 2 blocks, thread 1 releases once. -/
def example_nested_ops : List Mutex_op :=
  [Mutex_op.acquire 1 none, Mutex_op.acquire 1 none, Mutex_op.acquire 2 none,
   Mutex_op.release 1]

/-! ## Part 3: the Cirrus frame buffer driver (fb_cirrus.c) -/

/-- The status codes the driver entry points deal with; `RTEMS_OTHER` stands
for the remaining codes a service may report. -/
inductive rtems_status_code
  | RTEMS_SUCCESSFUL
  | RTEMS_UNSATISFIED
  | RTEMS_OTHER (code : Nat)
  deriving DecidableEq, Repr

/-- How an entry point ends: by returning a status, or in
`rtems_fatal_error_occurred`, which does not return. -/
inductive Driver_outcome
  | returned (status : rtems_status_code)
  | fatal_error (status : rtems_status_code)
  deriving DecidableEq, Repr

/-- The macro `FB_CIRRUS_MAX_CARDS`. -/
def FB_CIRRUS_MAX_CARDS : Nat := 1

/-- The macro `CIRRUS_VENDOR_ID`. -/
def CIRRUS_VENDOR_ID : Nat := 0x1013

/-- The macro `CIRRUS_GD5446_DEVICE_ID`. -/
def CIRRUS_GD5446_DEVICE_ID : Nat := 0x00b8

/-- Reduction of a value to an unsigned 32 bit object. -/
def to_uint32 (x : Int) : Nat := (x % 4294967296).toNat

/-- Reduction of a value to a signed 32 bit `int`. -/
def to_int32 (x : Int) : Int := (x + 2147483648) % 4294967296 - 2147483648

/-- The struct `fb_cirrus_modeline`. -/
structure fb_cirrus_modeline where
  clock : Int
  hdisplay : Int
  hsync_start : Int
  hsync_end : Int
  htotal : Int
  hskew : Int
  vdisplay : Int
  vsync_start : Int
  vsync_end : Int
  vtotal : Int
  vscan : Int
  flags : Nat
  deriving DecidableEq, Repr

/-- The terminating entry of the modeline table: clock 0, all else zero. -/
def fb_cirrus_no_modeline : fb_cirrus_modeline :=
  { clock := 0, hdisplay := 0, hsync_start := 0, hsync_end := 0, htotal := 0, hskew := 0,
    vdisplay := 0, vsync_start := 0, vsync_end := 0, vtotal := 0, vscan := 0, flags := 0 }

/-- The table `fb_cirrus_std_modelines`: 640x480, 800x600 and the terminator. -/
def fb_cirrus_std_modelines : List fb_cirrus_modeline :=
  [ { clock := 31500,
      hdisplay := 640, hsync_start := 664, hsync_end := 704, htotal := 832, hskew := 0,
      vdisplay := 480, vsync_start := 489, vsync_end := 492, vtotal := 520, vscan := 0,
      flags := 0 },
    { clock := 40000,
      hdisplay := 800, hsync_start := 840, hsync_end := 968, htotal := 1056, hskew := 0,
      vdisplay := 600, vsync_start := 601, vsync_end := 605, vtotal := 628, vscan := 0,
      flags := 0 },
    fb_cirrus_no_modeline ]

/-- The two tunables of the driver, `FB_CIRRUS_DEFAULT_MODE` (index into the
modeline table) and `FB_CIRRUS_DEFAULT_BPP`, which the build may override. -/
structure Fb_cirrus_tunables where
  FB_CIRRUS_DEFAULT_MODE : Nat
  FB_CIRRUS_DEFAULT_BPP : Nat
  deriving DecidableEq, Repr

/-- The values the source gives the tunables when the build sets none. -/
def default_tunables : Fb_cirrus_tunables :=
  { FB_CIRRUS_DEFAULT_MODE := 0, FB_CIRRUS_DEFAULT_BPP := 24 }

/-- The members of `struct fb_var_screeninfo` the driver uses (32 bit
unsigned). -/
structure fb_var_screeninfo where
  xres : Nat
  yres : Nat
  bits_per_pixel : Nat
  deriving DecidableEq, Repr

/-- The members of `struct fb_fix_screeninfo` the driver uses. -/
structure fb_fix_screeninfo where
  smem_start : Nat
  smem_len : Nat
  type : Nat
  visual : Nat
  line_length : Nat
  deriving DecidableEq, Repr

/-- The struct `fb_cirrus_state`; `active_mode` points into the modeline table
and is kept as the index pointed to, none for the null pointer. -/
structure fb_cirrus_state where
  found : Int
  pbus : Int
  pdev : Int
  pfun : Int
  pci_bar0 : Nat
  pci_bar1 : Nat
  pci_bar2 : Nat
  pci_bar3 : Nat
  fb_var : fb_var_screeninfo
  fb_fix : fb_fix_screeninfo
  mmregs : Nat
  active_mode : Option Nat
  deriving DecidableEq, Repr

/-- The struct `fb_cmap` as far as the driver uses it: start and length (32 bit
unsigned) and the red, green and blue arrays the caller supplies. -/
structure fb_cmap where
  start : Nat
  len : Nat
  red : List Nat
  green : List Nat
  blue : List Nat
  deriving DecidableEq, Repr

/-- The constants the driver takes from headers that are not among the
sources (rtems/fb.h, rtems/pci.h). -/
structure Platform_constants where
  PCI_BASE_ADDRESS_0 : Nat
  PCI_BASE_ADDRESS_1 : Nat
  PCI_BASE_ADDRESS_2 : Nat
  PCI_BASE_ADDRESS_3 : Nat
  PCI_BASE_ADDRESS_MEM_MASK : Nat
  FB_TYPE_PACKED_PIXELS : Nat
  FB_VISUAL_TRUECOLOR : Nat
  FBIOGET_FSCREENINFO : Nat
  FBIOGET_VSCREENINFO : Nat
  FBIOPUT_VSCREENINFO : Nat
  FBIOGETCMAP : Nat
  FBIOPUTCMAP : Nat
  deriving DecidableEq, Repr

/-- The case labels of the switch in `frame_buffer_control` are pairwise
different, as C requires of case labels. -/
def Platform_constants.distinct_commands (k : Platform_constants) : Prop :=
  [k.FBIOGET_FSCREENINFO, k.FBIOGET_VSCREENINFO, k.FBIOPUT_VSCREENINFO,
   k.FBIOGETCMAP, k.FBIOPUTCMAP].Nodup

/-- The services the driver calls: PCI lookup and configuration reads, paging,
name registration, and what the device does with the register programme and
the test pattern of `fb_cirrus_set_crt_mode`. -/
structure Environment where
  /-- the bus, device and function of the card found, none if no card -/
  pci_find_device : Nat → Nat → Nat → Option (Int × Int × Int)
  /-- the dword read at a configuration offset of a bus, device and function -/
  pci_read_config_dword : Int → Int → Int → Nat → Nat
  paging_enabled : Bool
  /-- the address a physical range of a given size is mapped at -/
  map_phys_address : Nat → Nat → Nat
  /-- the status of `rtems_io_register_name` for a name, major and minor -/
  rtems_io_register_name : String → Nat → Nat → rtems_status_code
  /-- the video memory after the card was programmed for a state -/
  crt_programmed : fb_cirrus_state → (Nat → Nat) → (Nat → Nat)

/-- The static objects of the driver: the one element of `fb_cirrus[]` (every
access is guarded by `minor < FB_CIRRUS_MAX_CARDS`, so the index is 0), the
three palette tables, the open mutex; and the video memory of the card, a
byte for each address. -/
structure Fb_driver where
  fb_cirrus : fb_cirrus_state
  red16 : List Nat
  green16 : List Nat
  blue16 : List Nat
  mutex_locked : Bool
  video_memory : Nat → Nat

/-- The initial value of the table `red16`. -/
def red16_initial : List Nat :=
  [0x0000, 0x0000, 0x0000, 0x0000, 0xaaaa, 0xaaaa, 0xaaaa, 0xaaaa,
   0x5555, 0x5555, 0x5555, 0x5555, 0xffff, 0xffff, 0xffff, 0xffff]

/-- The initial value of the table `green16`. -/
def green16_initial : List Nat :=
  [0x0000, 0x0000, 0xaaaa, 0xaaaa, 0x0000, 0x0000, 0x5555, 0xaaaa,
   0x5555, 0x5555, 0xffff, 0xffff, 0x5555, 0x5555, 0xffff, 0xffff]

/-- The initial value of the table `blue16`. -/
def blue16_initial : List Nat :=
  [0x0000, 0xaaaa, 0x0000, 0xaaaa, 0x0000, 0xaaaa, 0x0000, 0xaaaa,
   0x5555, 0xffff, 0x5555, 0xffff, 0x5555, 0xffff, 0x5555, 0xffff]

/-- The driver as the program starts: zeroed `fb_cirrus[]`, the palette tables
as initialised, the mutex unlocked. -/
def Fb_driver.initial (video_memory : Nat → Nat) : Fb_driver :=
  { fb_cirrus :=
      { found := 0, pbus := 0, pdev := 0, pfun := 0
        pci_bar0 := 0, pci_bar1 := 0, pci_bar2 := 0, pci_bar3 := 0
        fb_var := { xres := 0, yres := 0, bits_per_pixel := 0 }
        fb_fix := { smem_start := 0, smem_len := 0, type := 0, visual := 0, line_length := 0 }
        mmregs := 0
        active_mode := none }
    red16 := red16_initial
    green16 := green16_initial
    blue16 := blue16_initial
    mutex_locked := false
    video_memory := video_memory }

/-- The value `fb_cirrus_set_crt_mode` returns: 0 for a supported depth, -1
otherwise. Its stores go to the registers and the video memory of the card. -/
def fb_cirrus_set_crt_mode (fbst : fb_cirrus_state) : Int :=
  if fbst.fb_var.bits_per_pixel = 8 ∨ fbst.fb_var.bits_per_pixel = 16 ∨
      fbst.fb_var.bits_per_pixel = 24 ∨ fbst.fb_var.bits_per_pixel = 32 then 0
  else -1

/-- The entry point `frame_buffer_initialize`. The store through `--p` lands
in front of `devname`, so the name registered is "/dev/fb0". -/
def frame_buffer_initialize {α : Type} (env : Environment) (major minor : Nat) (arg : α)
    (d : Fb_driver) : Driver_outcome × Fb_driver × α :=
  if minor ≥ FB_CIRRUS_MAX_CARDS then
    (Driver_outcome.returned rtems_status_code.RTEMS_UNSATISFIED, d, arg)
  else
    match env.pci_find_device CIRRUS_VENDOR_ID CIRRUS_GD5446_DEVICE_ID minor with
    | none =>
      (Driver_outcome.returned rtems_status_code.RTEMS_UNSATISFIED,
        { d with fb_cirrus := { d.fb_cirrus with found := -1 } }, arg)
    | some (bus, dev, func) =>
      let fbst : fb_cirrus_state := { d.fb_cirrus with pbus := bus, pdev := dev, pfun := func }
      let status := env.rtems_io_register_name "/dev/fb0" major 0
      if status ≠ rtems_status_code.RTEMS_SUCCESSFUL then
        (Driver_outcome.fatal_error status,
          { d with fb_cirrus := { fbst with found := -1 } }, arg)
      else
        (Driver_outcome.returned rtems_status_code.RTEMS_SUCCESSFUL,
          { d with fb_cirrus := { fbst with found := 1 } }, arg)

/-- The local `line_bytes` of `frame_buffer_open` after its two assignments:
the product of the 32 bit unsigned `xres` and `bits_per_pixel` stored in an
`int`, then `(line_bytes + 7) / 8` in `int` arithmetic. -/
def line_bytes (xres bits_per_pixel : Nat) : Int :=
  to_int32 (Int.tdiv
    (to_int32 (to_int32 (((xres * bits_per_pixel) % 4294967296 : Nat) : Int) + 7)) 8)

/-- The geometry part of `frame_buffer_open`: from `smem_len` to
`line_length`, for the state `fbst` reached before it. -/
def open_geometry (k : Platform_constants) (cfg : Fb_cirrus_tunables)
    (fbst : fb_cirrus_state) : fb_cirrus_state :=
  let mode := fb_cirrus_std_modelines.getD cfg.FB_CIRRUS_DEFAULT_MODE fb_cirrus_no_modeline
  let bpp := cfg.FB_CIRRUS_DEFAULT_BPP % 4294967296
  let xres := to_uint32 mode.hdisplay
  let yres := to_uint32 mode.vdisplay
  { fbst with
    fb_fix :=
      { fbst.fb_fix with
        smem_len := 0x1000000
        type := k.FB_TYPE_PACKED_PIXELS
        visual := k.FB_VISUAL_TRUECOLOR
        line_length := to_uint32 (line_bytes xres bpp) }
    active_mode := some cfg.FB_CIRRUS_DEFAULT_MODE
    fb_var := { xres := xres, yres := yres, bits_per_pixel := bpp } }

/-- The entry point `frame_buffer_open`. -/
def frame_buffer_open {α : Type} (k : Platform_constants) (cfg : Fb_cirrus_tunables)
    (env : Environment) (_major minor : Nat) (arg : α) (d : Fb_driver) :
    rtems_status_code × Fb_driver × α :=
  if minor ≥ FB_CIRRUS_MAX_CARDS then
    (rtems_status_code.RTEMS_UNSATISFIED, d, arg)
  else if d.mutex_locked then
    (rtems_status_code.RTEMS_UNSATISFIED, d, arg)
  else
    let f0 := d.fb_cirrus
    let read := env.pci_read_config_dword f0.pbus f0.pdev f0.pfun
    let bar0 := (read k.PCI_BASE_ADDRESS_0 % 4294967296) &&& k.PCI_BASE_ADDRESS_MEM_MASK
    let bar1 := (read k.PCI_BASE_ADDRESS_1 % 4294967296) &&& k.PCI_BASE_ADDRESS_MEM_MASK
    let f1 : fb_cirrus_state :=
      { f0 with
        pci_bar0 := bar0
        pci_bar1 := bar1
        pci_bar2 := read k.PCI_BASE_ADDRESS_2 % 4294967296
        pci_bar3 := read k.PCI_BASE_ADDRESS_3 % 4294967296 }
    let f2 : fb_cirrus_state :=
      if env.paging_enabled then
        { f1 with
          fb_fix := { f1.fb_fix with smem_start := env.map_phys_address bar0 0x1000000 }
          mmregs := env.map_phys_address bar1 0x1000 }
      else
        { f1 with
          fb_fix := { f1.fb_fix with smem_start := bar0 }
          mmregs := bar1 }
    let f3 := open_geometry k cfg f2
    (rtems_status_code.RTEMS_SUCCESSFUL,
      { d with
        fb_cirrus := f3
        mutex_locked := true
        video_memory := env.crt_programmed f3 d.video_memory }, arg)

/-- The entry point `frame_buffer_close`. -/
def frame_buffer_close {α : Type} (_major _minor : Nat) (arg : α) (d : Fb_driver) :
    rtems_status_code × Fb_driver × α :=
  if d.mutex_locked then
    (rtems_status_code.RTEMS_SUCCESSFUL, { d with mutex_locked := false }, arg)
  else
    (rtems_status_code.RTEMS_UNSATISFIED, d, arg)

/-- The members of `rtems_libio_rw_args_t` the driver uses: the offset (a
signed `off_t`), the caller's buffer (a byte for each index), the count and
the bytes moved (32 bit unsigned). -/
structure rtems_libio_rw_args_t where
  offset : Int
  buffer : Nat → Nat
  count : Nat
  bytes_moved : Nat

/-- The value both `frame_buffer_read` and `frame_buffer_write` store in
`bytes_moved`: the comparison and the subtraction are done in `off_t`, the
result is converted to 32 bit unsigned. -/
def bytes_to_move (fbst : fb_cirrus_state) (rw_args : rtems_libio_rw_args_t) : Nat :=
  if rw_args.offset + (rw_args.count : Int) > (fbst.fb_fix.smem_len : Int) then
    to_uint32 ((fbst.fb_fix.smem_len : Int) - rw_args.offset)
  else
    rw_args.count % 4294967296

/-- The entry point `frame_buffer_read`. -/
def frame_buffer_read (_major minor : Nat) (rw_args : rtems_libio_rw_args_t)
    (d : Fb_driver) : rtems_status_code × Fb_driver × rtems_libio_rw_args_t :=
  if minor ≥ FB_CIRRUS_MAX_CARDS then
    (rtems_status_code.RTEMS_UNSATISFIED, d, rw_args)
  else
    let n := bytes_to_move d.fb_cirrus rw_args
    let source : Int := (d.fb_cirrus.fb_fix.smem_start : Int) + rw_args.offset
    (rtems_status_code.RTEMS_SUCCESSFUL, d,
      { rw_args with
        bytes_moved := n
        buffer := fun i =>
          if i < n then d.video_memory (source + (i : Int)).toNat else rw_args.buffer i })

/-- The entry point `frame_buffer_write`. -/
def frame_buffer_write (_major minor : Nat) (rw_args : rtems_libio_rw_args_t)
    (d : Fb_driver) : rtems_status_code × Fb_driver × rtems_libio_rw_args_t :=
  if minor ≥ FB_CIRRUS_MAX_CARDS then
    (rtems_status_code.RTEMS_UNSATISFIED, d, rw_args)
  else
    let n := bytes_to_move d.fb_cirrus rw_args
    let target : Int := (d.fb_cirrus.fb_fix.smem_start : Int) + rw_args.offset
    (rtems_status_code.RTEMS_SUCCESSFUL,
      { d with
        video_memory := fun a =>
          if target ≤ (a : Int) ∧ (a : Int) < target + (n : Int) then
            rw_args.buffer ((a : Int) - target).toNat
          else d.video_memory a },
      { rw_args with bytes_moved := n })

/-- The helper `get_fix_screen_info`: copies `fb_fix` out, returns 0. -/
def get_fix_screen_info (fbst : fb_cirrus_state) (_info : fb_fix_screeninfo) :
    Int × fb_fix_screeninfo :=
  (0, fbst.fb_fix)

/-- The helper `get_var_screen_info`: copies `fb_var` out, returns 0. -/
def get_var_screen_info (fbst : fb_cirrus_state) (_info : fb_var_screeninfo) :
    Int × fb_var_screeninfo :=
  (0, fbst.fb_var)

/-- The index `cmap->start + i` of the palette loops, in 32 bit unsigned
arithmetic. -/
def palette_index (cmap : fb_cmap) (i : Nat) : Nat :=
  (cmap.start + i) % 4294967296

/-- The test `cmap->start + cmap->len >= 16` of both palette helpers, in 32 bit
unsigned arithmetic. -/
def palette_rejected (cmap : fb_cmap) : Bool :=
  decide ((cmap.start + cmap.len) % 4294967296 ≥ 16)

/-- The helper `get_palette`: 1 if the request is rejected, else the loop over
`i < len` copying the three tables into the caller's arrays, and 0. A table
entry beyond the table reads as 0 here. -/
def get_palette (d : Fb_driver) (cmap : fb_cmap) : Int × fb_cmap :=
  if palette_rejected cmap then (1, cmap)
  else
    (0, (List.range cmap.len).foldl
      (fun c i =>
        { c with
          red := c.red.set (palette_index cmap i) (d.red16.getD (palette_index cmap i) 0)
          green := c.green.set (palette_index cmap i) (d.green16.getD (palette_index cmap i) 0)
          blue := c.blue.set (palette_index cmap i) (d.blue16.getD (palette_index cmap i) 0) })
      cmap)

/-- The helper `set_palette`: 1 if the request is rejected, else the loop over
`i < len` copying the caller's arrays into the three tables, and 0. A store
beyond a table is dropped here. -/
def set_palette (d : Fb_driver) (cmap : fb_cmap) : Int × Fb_driver :=
  if palette_rejected cmap then (1, d)
  else
    (0, (List.range cmap.len).foldl
      (fun s i =>
        { s with
          red16 := s.red16.set (palette_index cmap i) (cmap.red.getD (palette_index cmap i) 0)
          green16 := s.green16.set (palette_index cmap i)
            (cmap.green.getD (palette_index cmap i) 0)
          blue16 := s.blue16.set (palette_index cmap i)
            (cmap.blue.getD (palette_index cmap i) 0) })
      d)

/-- The memory `args->buffer` points to, as read through each of the pointer
types `frame_buffer_control` casts it to. -/
structure Ioctl_buffer where
  fix_info : fb_fix_screeninfo
  var_info : fb_var_screeninfo
  cmap : fb_cmap
  deriving DecidableEq, Repr

/-- The members of `rtems_libio_ioctl_args_t` the driver uses. -/
structure rtems_libio_ioctl_args_t where
  command : Nat
  buffer : Ioctl_buffer
  ioctl_return : Int
  deriving DecidableEq, Repr

/-- The entry point `frame_buffer_control`: the switch over the command, case
by case in the order of the source. -/
def frame_buffer_control (k : Platform_constants) (_major minor : Nat)
    (args : rtems_libio_ioctl_args_t) (d : Fb_driver) :
    rtems_status_code × Fb_driver × rtems_libio_ioctl_args_t :=
  if minor ≥ FB_CIRRUS_MAX_CARDS then
    (rtems_status_code.RTEMS_UNSATISFIED, d, args)
  else if args.command = k.FBIOGET_FSCREENINFO then
    let r := get_fix_screen_info d.fb_cirrus args.buffer.fix_info
    (rtems_status_code.RTEMS_SUCCESSFUL, d,
      { args with ioctl_return := r.1, buffer := { args.buffer with fix_info := r.2 } })
  else if args.command = k.FBIOGET_VSCREENINFO then
    let r := get_var_screen_info d.fb_cirrus args.buffer.var_info
    (rtems_status_code.RTEMS_SUCCESSFUL, d,
      { args with ioctl_return := r.1, buffer := { args.buffer with var_info := r.2 } })
  else if args.command = k.FBIOPUT_VSCREENINFO then
    (rtems_status_code.RTEMS_UNSATISFIED, d, { args with ioctl_return := -1 })
  else if args.command = k.FBIOGETCMAP then
    let r := get_palette d args.buffer.cmap
    (rtems_status_code.RTEMS_SUCCESSFUL, d,
      { args with ioctl_return := r.1, buffer := { args.buffer with cmap := r.2 } })
  else if args.command = k.FBIOPUTCMAP then
    let r := set_palette d args.buffer.cmap
    (rtems_status_code.RTEMS_SUCCESSFUL, r.2, { args with ioctl_return := r.1 })
  else
    (rtems_status_code.RTEMS_SUCCESSFUL, d, { args with ioctl_return := 0 })

/-- The platform constants as the RTEMS headers give them, for examples. -/
def example_constants : Platform_constants :=
  { PCI_BASE_ADDRESS_0 := 0x10
    PCI_BASE_ADDRESS_1 := 0x14
    PCI_BASE_ADDRESS_2 := 0x18
    PCI_BASE_ADDRESS_3 := 0x1c
    PCI_BASE_ADDRESS_MEM_MASK := 0xfffffff0
    FB_TYPE_PACKED_PIXELS := 0
    FB_VISUAL_TRUECOLOR := 2
    FBIOGET_VSCREENINFO := 0x4600
    FBIOPUT_VSCREENINFO := 0x4601
    FBIOGET_FSCREENINFO := 0x4602
    FBIOGETCMAP := 0x4604
    FBIOPUTCMAP := 0x4605 }

/-- An environment for examples: a card at bus 0, device 2, function 0, with
the frame buffer at 0xfc000000 and the registers at 0xfebf0000, no paging. -/
def example_environment : Environment :=
  { pci_find_device := fun _ _ _ => some (0, 2, 0)
    pci_read_config_dword := fun _ _ _ offset =>
      if offset = 0x10 then 0xfc000008 else if offset = 0x14 then 0xfebf0000 else 0
    paging_enabled := false
    map_phys_address := fun a _ => a
    rtems_io_register_name := fun _ _ _ => rtems_status_code.RTEMS_SUCCESSFUL
    crt_programmed := fun _ m => m }

/-- A driver for examples: the initial one over zeroed video memory. -/
def example_driver : Fb_driver := Fb_driver.initial (fun _ => 0)

/-- An ioctl argument block for examples. -/
def example_ioctl_args (command : Nat) (start len : Nat) : rtems_libio_ioctl_args_t :=
  { command := command
    buffer :=
      { fix_info := { smem_start := 0, smem_len := 0, type := 0, visual := 0, line_length := 0 }
        var_info := { xres := 0, yres := 0, bits_per_pixel := 0 }
        cmap := { start := start, len := len
                  red := List.replicate 16 0
                  green := List.replicate 16 0
                  blue := List.replicate 16 0 } }
    ioctl_return := 7 }

/-- A read/write argument block for examples. -/
def example_rw_args (offset : Int) (count : Nat) : rtems_libio_rw_args_t :=
  { offset := offset, buffer := fun _ => 0, count := count, bytes_moved := 0 }

/-- The indices `cmap->start + i`, for `i` from 0 up to `len - 1`, at which the
loops of `get_palette` and `set_palette` access `red16`, `green16` and
`blue16`. -/
def palette_indices (cmap : fb_cmap) : List Nat :=
  (List.range cmap.len).map (palette_index cmap)

/-- A colour-map request for examples: `start` and `len` as given, arrays of
16 zero entries. -/
def example_cmap (start len : Nat) : fb_cmap :=
  { start := start, len := len
    red := List.replicate 16 0
    green := List.replicate 16 0
    blue := List.replicate 16 0 }

/-- The example driver after a successful `frame_buffer_open` with the default
tunables: `smem_len` is 0x1000000. -/
def example_opened_driver : Fb_driver :=
  (frame_buffer_open example_constants default_tunables example_environment 0 0 ()
    example_driver).2.1

/-! ## Theorems: flush -/

theorem flushed_idem (status : Nat) (th : Thread_Control) :
    flushed status (flushed status th) = flushed status th := by
  unfold flushed
  cases h : th.is_remote <;> simp [h]

theorem flushed_is_remote (status : Nat) (th : Thread_Control) :
    (flushed status th).is_remote = th.is_remote := by
  unfold flushed
  cases h : th.is_remote <;> simp [h]

theorem flush_one_threads {σ : Type} (c : Thread_queue_Flush_callout σ) (status : Nat)
    (w : World σ) (t : Objects_Id) :
    (flush_one c status w t).threads =
      Function.update w.threads t (flushed status (w.threads t)) := by
  unfold flush_one flushed
  cases h : (w.threads t).is_remote <;> simp [h]

theorem flush_one_events {σ : Type} (c : Thread_queue_Flush_callout σ) (status : Nat)
    (w : World σ) (t : Objects_Id) :
    (flush_one c status w t).events = w.events ++ [wake_event w.threads status t] := by
  unfold flush_one wake_event
  cases h : (w.threads t).is_remote <;> simp [h]

theorem flush_one_remote_side {σ : Type} (c : Thread_queue_Flush_callout σ) (status : Nat)
    (w : World σ) (t : Objects_Id) :
    (flush_one c status w t).remote_side =
      if (w.threads t).is_remote then c t w.remote_side else w.remote_side := by
  unfold flush_one
  cases h : (w.threads t).is_remote <;> simp [h]

theorem flush_one_is_remote {σ : Type} (c : Thread_queue_Flush_callout σ) (status : Nat)
    (w : World σ) (t x : Objects_Id) :
    ((flush_one c status w t).threads x).is_remote = (w.threads x).is_remote := by
  rw [flush_one_threads]
  by_cases hx : x = t
  · subst hx; simp [flushed_is_remote]
  · simp [Function.update_noteq hx]

/-- What the flush loop computes: an empty queue, every listed thread treated,
one wake-up per listed thread in order, the callout folded over the remote
ones. -/
theorem flush_loop_eq {σ : Type} (c : Thread_queue_Flush_callout σ) (status : Nat)
    (l : List Objects_Id) (w : World σ) :
    (flush_loop c status l w).1 = [] ∧
    (flush_loop c status l w).2.threads =
      (fun t => if t ∈ l then flushed status (w.threads t) else w.threads t) ∧
    (flush_loop c status l w).2.events = w.events ++ l.map (wake_event w.threads status) ∧
    (flush_loop c status l w).2.remote_side =
      (remote_waiters w.threads l).foldl (fun r t => c t r) w.remote_side := by
  induction l generalizing w with
  | nil => simp [flush_loop, remote_waiters]
  | cons t rest ih =>
    obtain ⟨h1, h2, h3, h4⟩ := ih (flush_one c status w t)
    have hr : ∀ x, ((flush_one c status w t).threads x).is_remote = (w.threads x).is_remote :=
      flush_one_is_remote c status w t
    refine ⟨by simpa [flush_loop] using h1, ?_, ?_, ?_⟩
    · simp only [flush_loop]
      rw [h2]
      funext x
      rw [flush_one_threads]
      by_cases hx : x = t
      · subst hx
        simp [flushed_idem]
      · simp [Function.update_noteq hx, hx]
    · simp only [flush_loop]
      rw [h3, flush_one_events]
      have : List.map (wake_event (flush_one c status w t).threads status) rest =
          List.map (wake_event w.threads status) rest := by
        apply List.map_congr_left
        intro x _
        simp [wake_event, hr x]
      rw [this]
      simp
    · simp only [flush_loop]
      rw [h4, flush_one_remote_side]
      have : remote_waiters (flush_one c status w t).threads rest =
          remote_waiters w.threads rest := by
        unfold remote_waiters
        apply List.filter_congr
        intro x _
        simp [hr x]
      rw [this]
      unfold remote_waiters
      cases h : (w.threads t).is_remote <;> simp [List.filter_cons, h]

theorem ready_transitions_map (threads : Objects_Id → Thread_Control) (status : Nat)
    (l : List Objects_Id) :
    ready_transitions (l.map (wake_event threads status)) =
      (local_waiters threads l).length := by
  unfold ready_transitions local_waiters
  induction l with
  | nil => simp
  | cons t rest ih =>
    simp only [List.map_cons, List.countP_cons, List.filter_cons, ih]
    cases h : (threads t).is_remote <;> simp [wake_event, h]

theorem remote_extractions_map (threads : Objects_Id → Thread_Control) (status : Nat)
    (l : List Objects_Id) :
    remote_extractions (l.map (wake_event threads status)) =
      (remote_waiters threads l).length := by
  unfold remote_extractions remote_waiters
  induction l with
  | nil => simp
  | cons t rest ih =>
    simp only [List.map_cons, List.countP_cons, List.filter_cons, ih]
    cases h : (threads t).is_remote <;> simp [wake_event, h]

theorem callout_invocations_map (threads : Objects_Id → Thread_Control) (status : Nat)
    (l : List Objects_Id) (t : Objects_Id) :
    callout_invocations t (l.map (wake_event threads status)) =
      if (threads t).is_remote then l.count t else 0 := by
  unfold callout_invocations
  induction l with
  | nil => simp
  | cons x rest ih =>
    simp only [List.map_cons, List.count_cons, ih]
    by_cases hx : x = t
    · subst hx
      cases h : (threads x).is_remote <;> simp [wake_event, h]
    · have hx2 : ¬ t = x := fun e => hx e.symm
      cases h : (threads t).is_remote <;> cases h2 : (threads x).is_remote <;>
        simp [wake_event, h, h2, hx, hx2]

theorem new_events_append {σ : Type} (w w2 : World σ) (evs : List Flush_event)
    (h : w2.events = w.events ++ evs) : new_events w w2 = evs := by
  simp [new_events, h]

theorem ready_mem_map (threads : Objects_Id → Thread_Control) (status : Nat)
    (l : List Objects_Id) (t : Objects_Id) (st : Nat) :
    Flush_event.ready t st ∈ l.map (wake_event threads status) ↔
      t ∈ l ∧ (threads t).is_remote = false ∧ st = status := by
  simp only [List.mem_map]
  constructor
  · rintro ⟨x, hx, he⟩
    unfold wake_event at he
    cases h : (threads x).is_remote
    · simp [h] at he
      obtain ⟨rfl, rfl⟩ := he
      exact ⟨hx, h, rfl⟩
    · simp [h] at he
  · rintro ⟨ht, hr, rfl⟩
    exact ⟨t, ht, by simp [wake_event, hr]⟩

/-- The events, threads and remote side a mutex flush leaves behind. -/
theorem CORE_mutex_Flush_eq {σ : Type} (m : CORE_mutex_Control)
    (c : Thread_queue_Flush_callout σ) (status : Nat) (w : World σ) :
    (_CORE_mutex_Flush m c status w).1.Wait_queue.waiters = [] ∧
    (_CORE_mutex_Flush m c status w).2.threads =
      (fun t => if t ∈ m.Wait_queue.waiters then flushed status (w.threads t)
        else w.threads t) ∧
    new_events w (_CORE_mutex_Flush m c status w).2 =
      m.Wait_queue.waiters.map (wake_event w.threads status) ∧
    (_CORE_mutex_Flush m c status w).2.remote_side =
      (remote_waiters w.threads m.Wait_queue.waiters).foldl (fun r t => c t r)
        w.remote_side := by
  obtain ⟨h1, h2, h3, h4⟩ := flush_loop_eq c status m.Wait_queue.waiters w
  exact ⟨h1, h2, new_events_append _ _ _ h3, h4⟩

theorem local_add_remote (threads : Objects_Id → Thread_Control) (l : List Objects_Id) :
    (local_waiters threads l).length + (remote_waiters threads l).length = l.length := by
  unfold local_waiters remote_waiters
  induction l with
  | nil => simp
  | cons t rest ih =>
    simp only [List.filter_cons, List.length_cons]
    cases h : (threads t).is_remote <;> simp <;> omega

theorem local_waiters_all (threads : Objects_Id → Thread_Control) (l : List Objects_Id)
    (h : ∀ t ∈ l, (threads t).is_remote = false) : local_waiters threads l = l := by
  unfold local_waiters
  apply List.filter_eq_self.mpr
  intro t ht
  simp [h t ht]

/-! ### C1 -/

/-- C1, as stated, fails: a mutex whose wait queue holds one remotely blocked
thread (N = 1) is flushed with no ready transition at all; the one wake-up is a
callout invocation. -/
theorem C1_counterexample_remote_waiter :
    (example_mutex [3] none 0).Wait_queue.waiters.length = 1 ∧
    ready_transitions (new_events example_world
      (_CORE_mutex_Flush (example_mutex [3] none 0) example_callout 5 example_world).2) = 0 ∧
    remote_extractions (new_events example_world
      (_CORE_mutex_Flush (example_mutex [3] none 0) example_callout 5 example_world).2) = 1 := by
  decide

/-- C1 (amended): for every mutex whose wait queue holds N threads and every
status, `_CORE_mutex_Flush` performs exactly N wake-ups, a ready transition for
each locally blocked waiter and a callout invocation for each remotely blocked
one (so exactly N ready transitions when no waiter is remote); each waiter
carries the supplied status as its wait-return value, each local waiter is
ready, and the wait queue is empty afterwards. -/
theorem C1_flush_wakes_every_waiter {σ : Type} (m : CORE_mutex_Control)
    (c : Thread_queue_Flush_callout σ) (status : Nat) (w : World σ) :
    (new_events w (_CORE_mutex_Flush m c status w).2).length = m.Wait_queue.waiters.length ∧
    ready_transitions (new_events w (_CORE_mutex_Flush m c status w).2) =
      (local_waiters w.threads m.Wait_queue.waiters).length ∧
    remote_extractions (new_events w (_CORE_mutex_Flush m c status w).2) =
      (remote_waiters w.threads m.Wait_queue.waiters).length ∧
    ready_transitions (new_events w (_CORE_mutex_Flush m c status w).2) +
      remote_extractions (new_events w (_CORE_mutex_Flush m c status w).2) =
        m.Wait_queue.waiters.length ∧
    ((∀ t ∈ m.Wait_queue.waiters, (w.threads t).is_remote = false) →
      ready_transitions (new_events w (_CORE_mutex_Flush m c status w).2) =
        m.Wait_queue.waiters.length) ∧
    (∀ t ∈ m.Wait_queue.waiters,
      ((_CORE_mutex_Flush m c status w).2.threads t).Wait_return_code = status) ∧
    (∀ t ∈ m.Wait_queue.waiters, (w.threads t).is_remote = false →
      ((_CORE_mutex_Flush m c status w).2.threads t).current_state =
        States_Control.Ready) ∧
    (_CORE_mutex_Flush m c status w).1.Wait_queue.waiters = [] := by
  obtain ⟨h1, h2, h3, _⟩ := CORE_mutex_Flush_eq m c status w
  rw [h3, ready_transitions_map, remote_extractions_map]
  refine ⟨by simp, rfl, rfl, local_add_remote _ _, ?_, ?_, ?_, h1⟩
  · intro h
    rw [local_waiters_all _ _ h]
  · intro t ht
    rw [h2]
    simp only [ht, if_true]
    unfold flushed
    cases (w.threads t).is_remote <;> simp
  · intro t ht hl
    rw [h2]
    simp only [ht, if_true]
    simp [flushed, hl]

/-- C1 (amended) at a queue of two local waiters and one remote waiter. -/
theorem C1_flush_wakes_every_waiter_witness :
    ready_transitions (new_events example_world
      (_CORE_mutex_Flush (example_mutex [1, 2] none 0) example_callout 5 example_world).2) = 2 ∧
    ((_CORE_mutex_Flush (example_mutex [1, 3, 2] none 0) example_callout 5
      example_world).2.threads 3).Wait_return_code = 5 ∧
    ((_CORE_mutex_Flush (example_mutex [1, 3, 2] none 0) example_callout 5
      example_world).2.threads 2).current_state = States_Control.Ready :=
  ⟨(C1_flush_wakes_every_waiter (example_mutex [1, 2] none 0) example_callout 5
      example_world).2.2.2.2.1 (by decide),
   (C1_flush_wakes_every_waiter (example_mutex [1, 3, 2] none 0) example_callout 5
      example_world).2.2.2.2.2.1 3 (by decide),
   (C1_flush_wakes_every_waiter (example_mutex [1, 3, 2] none 0) example_callout 5
      example_world).2.2.2.2.2.2.1 2 (by decide) (by decide)⟩

/-! ### C2 -/

/-- C2: for every mutex, callout and status, `_CORE_mutex_Flush` has exactly the
effect of `_Thread_queue_Flush` applied to the mutex's own embedded wait queue
with the same callout and status: the resulting mutex is the old one with that
queue result in place, the resulting world is that of the queue flush; the
function is total and has no error result. -/
theorem C2_mutex_flush_is_queue_flush {σ : Type} (m : CORE_mutex_Control)
    (c : Thread_queue_Flush_callout σ) (status : Nat) (w : World σ) :
    _CORE_mutex_Flush m c status w =
      ({ m with Wait_queue := (_Thread_queue_Flush m.Wait_queue c status w).1 },
        (_Thread_queue_Flush m.Wait_queue c status w).2) := by
  rfl

/-! ### C3 -/

/-- C3, as stated, fails: a mutex held by thread 9 with nesting depth 1 and one
local waiter 2 is flushed all the same: the waiter is made ready with the
status, one ready transition happens and the queue is emptied. -/
theorem C3_counterexample_held_mutex_is_flushed :
    (example_mutex [2] (some 9) 1).holder = some 9 ∧
    0 < (example_mutex [2] (some 9) 1).nest_count ∧
    new_events example_world
      (_CORE_mutex_Flush (example_mutex [2] (some 9) 1) example_callout 5 example_world).2 =
        [Flush_event.ready 2 5] ∧
    ((_CORE_mutex_Flush (example_mutex [2] (some 9) 1) example_callout 5
      example_world).2.threads 2).current_state = States_Control.Ready ∧
    (_CORE_mutex_Flush (example_mutex [2] (some 9) 1) example_callout 5
      example_world).1.Wait_queue.waiters = [] := by
  decide

/-- C3 (amended): flushing a mutex that is currently held does not fail:
`_CORE_mutex_Flush` has no error result and does not look at the owner; for
every mutex whose owner is set it does to the threads, the event log, the
remote side and the wait queue exactly what it does for the same mutex
unlocked, so every waiter is woken with the status and the queue is empty
afterwards, and the owner and the nesting depth stay as they were. -/
theorem C3_flush_ignores_owner {σ : Type} (m : CORE_mutex_Control)
    (c : Thread_queue_Flush_callout σ) (status : Nat) (w : World σ)
    (o : Objects_Id) (hheld : m.holder = some o) (hnest : 0 < m.nest_count) :
    (_CORE_mutex_Flush m c status w).2 =
      (_CORE_mutex_Flush { m with holder := none, nest_count := 0 } c status w).2 ∧
    (_CORE_mutex_Flush m c status w).1.Wait_queue =
      (_CORE_mutex_Flush { m with holder := none, nest_count := 0 } c status w).1.Wait_queue ∧
    new_events w (_CORE_mutex_Flush m c status w).2 =
      m.Wait_queue.waiters.map (wake_event w.threads status) ∧
    (∀ t ∈ m.Wait_queue.waiters,
      ((_CORE_mutex_Flush m c status w).2.threads t).Wait_return_code = status) ∧
    (_CORE_mutex_Flush m c status w).1.Wait_queue.waiters = [] ∧
    (_CORE_mutex_Flush m c status w).1.holder = some o ∧
    0 < (_CORE_mutex_Flush m c status w).1.nest_count ∧
    (_CORE_mutex_Flush m c status w).1.nest_count = m.nest_count := by
  obtain ⟨h1, h2, h3, _⟩ := CORE_mutex_Flush_eq m c status w
  refine ⟨rfl, rfl, h3, ?_, h1, hheld, hnest, rfl⟩
  intro t ht
  rw [h2]
  simp only [ht, if_true]
  unfold flushed
  cases (w.threads t).is_remote <;> simp

/-- C3 (amended) at a mutex held by thread 9 with waiters 1 and 2. -/
theorem C3_flush_ignores_owner_witness :
    new_events example_world
      (_CORE_mutex_Flush (example_mutex [1, 2] (some 9) 1) example_callout 5 example_world).2 =
        [1, 2].map (wake_event example_world.threads 5) ∧
    (_CORE_mutex_Flush (example_mutex [1, 2] (some 9) 1) example_callout 5
      example_world).1.holder = some 9 :=
  ⟨(C3_flush_ignores_owner (example_mutex [1, 2] (some 9) 1) example_callout 5
      example_world 9 rfl (by decide)).2.2.1,
   (C3_flush_ignores_owner (example_mutex [1, 2] (some 9) 1) example_callout 5
      example_world 9 rfl (by decide)).2.2.2.2.2.1⟩

/-! ### C4 -/

/-- C4: `_CORE_mutex_Flush` changes only the wait queue of the mutex and the
threads taken from it: owner, nesting depth, locking protocol, ceiling
priority (and recursion policy, queue identifier and queue discipline) are as
before, every thread that was not waiting is as before, and the invariant
"owner is none iff nesting depth is 0" is preserved. -/
theorem C4_flush_frame {σ : Type} (m : CORE_mutex_Control)
    (c : Thread_queue_Flush_callout σ) (status : Nat) (w : World σ)
    (hinv : m.owner_iff_nesting) :
    (_CORE_mutex_Flush m c status w).1.holder = m.holder ∧
    (_CORE_mutex_Flush m c status w).1.nest_count = m.nest_count ∧
    (_CORE_mutex_Flush m c status w).1.protocol = m.protocol ∧
    (_CORE_mutex_Flush m c status w).1.priority_ceiling = m.priority_ceiling ∧
    (_CORE_mutex_Flush m c status w).1.nesting_allowed = m.nesting_allowed ∧
    (_CORE_mutex_Flush m c status w).1.Wait_queue.id = m.Wait_queue.id ∧
    (_CORE_mutex_Flush m c status w).1.Wait_queue.discipline = m.Wait_queue.discipline ∧
    (∀ t, t ∉ m.Wait_queue.waiters →
      (_CORE_mutex_Flush m c status w).2.threads t = w.threads t) ∧
    (_CORE_mutex_Flush m c status w).1.owner_iff_nesting := by
  obtain ⟨_, h2, _, _⟩ := CORE_mutex_Flush_eq m c status w
  refine ⟨rfl, rfl, rfl, rfl, rfl, rfl, rfl, ?_, hinv⟩
  intro t ht
  rw [h2]
  simp [ht]

/-- C4 at a mutex held by thread 9 with nesting depth 2 and waiters 1 and 3. -/
theorem C4_flush_frame_witness :
    (example_mutex [1, 3] (some 9) 2).owner_iff_nesting ∧
    (_CORE_mutex_Flush (example_mutex [1, 3] (some 9) 2) example_callout 5
      example_world).1.holder = some 9 ∧
    (_CORE_mutex_Flush (example_mutex [1, 3] (some 9) 2) example_callout 5
      example_world).1.nest_count = 2 ∧
    (_CORE_mutex_Flush (example_mutex [1, 3] (some 9) 2) example_callout 5
      example_world).1.owner_iff_nesting :=
  have hinv : (example_mutex [1, 3] (some 9) 2).owner_iff_nesting := by
    simp [CORE_mutex_Control.owner_iff_nesting, example_mutex]
  ⟨hinv,
   (C4_flush_frame (example_mutex [1, 3] (some 9) 2) example_callout 5 example_world hinv).1,
   (C4_flush_frame (example_mutex [1, 3] (some 9) 2) example_callout 5 example_world hinv).2.1,
   (C4_flush_frame (example_mutex [1, 3] (some 9) 2) example_callout 5
      example_world hinv).2.2.2.2.2.2.2.2⟩

/-! ### C5 -/

/-- C5: during a mutex flush, for every waiting thread of a wait queue in which
each thread appears once: on a remotely blocked thread the supplied callout is
invoked (exactly once) and no local ready transition happens, its local state
staying as it was; on a local thread the callout is never invoked and the
ready transition happens; no thread sees the callout more than once; the
remote side is the result of the callout applied to the remote waiters in
queue order. -/
theorem C5_callout_for_remote_waiters_only {σ : Type} (m : CORE_mutex_Control)
    (c : Thread_queue_Flush_callout σ) (status : Nat) (w : World σ)
    (hq : m.Wait_queue.waiters.Nodup) :
    (∀ t ∈ m.Wait_queue.waiters, (w.threads t).is_remote = true →
      callout_invocations t (new_events w (_CORE_mutex_Flush m c status w).2) = 1 ∧
      (∀ st, Flush_event.ready t st ∉ new_events w (_CORE_mutex_Flush m c status w).2) ∧
      ((_CORE_mutex_Flush m c status w).2.threads t).current_state =
        (w.threads t).current_state) ∧
    (∀ t ∈ m.Wait_queue.waiters, (w.threads t).is_remote = false →
      callout_invocations t (new_events w (_CORE_mutex_Flush m c status w).2) = 0 ∧
      Flush_event.ready t status ∈ new_events w (_CORE_mutex_Flush m c status w).2) ∧
    (∀ t, callout_invocations t (new_events w (_CORE_mutex_Flush m c status w).2) ≤ 1) ∧
    (_CORE_mutex_Flush m c status w).2.remote_side =
      (remote_waiters w.threads m.Wait_queue.waiters).foldl (fun r t => c t r)
        w.remote_side := by
  obtain ⟨_, h2, h3, h4⟩ := CORE_mutex_Flush_eq m c status w
  rw [h3]
  refine ⟨?_, ?_, ?_, h4⟩
  · intro t ht hr
    refine ⟨?_, ?_, ?_⟩
    · rw [callout_invocations_map]
      simp [hr, List.count_eq_one_of_mem hq ht]
    · intro st hmem
      rw [ready_mem_map] at hmem
      rw [hr] at hmem
      exact absurd hmem.2.1 (by simp)
    · rw [h2]
      simp [ht, flushed, hr]
  · intro t ht hl
    refine ⟨?_, ?_⟩
    · rw [callout_invocations_map]
      simp [hl]
    · rw [ready_mem_map]
      exact ⟨ht, hl, rfl⟩
  · intro t
    rw [callout_invocations_map]
    split
    · exact List.nodup_iff_count_le_one.mp hq t
    · exact Nat.zero_le _

/-- C5 at the queue of waiters 1, 3 and 2, thread 3 being remote: the callout
runs once on thread 3, never on thread 1, and the remote side saw thread 3
alone. -/
theorem C5_callout_for_remote_waiters_only_witness :
    [1, 3, 2].Nodup ∧
    callout_invocations 3 (new_events example_world
      (_CORE_mutex_Flush (example_mutex [1, 3, 2] none 0) example_callout 5
        example_world).2) = 1 ∧
    callout_invocations 1 (new_events example_world
      (_CORE_mutex_Flush (example_mutex [1, 3, 2] none 0) example_callout 5
        example_world).2) = 0 ∧
    (_CORE_mutex_Flush (example_mutex [1, 3, 2] none 0) example_callout 5
      example_world).2.remote_side = [3] :=
  ⟨by decide,
   ((C5_callout_for_remote_waiters_only (example_mutex [1, 3, 2] none 0) example_callout 5
      example_world (by decide)).1 3 (by decide) (by decide)).1,
   ((C5_callout_for_remote_waiters_only (example_mutex [1, 3, 2] none 0) example_callout 5
      example_world (by decide)).2.1 1 (by decide) (by decide)).1,
   (C5_callout_for_remote_waiters_only (example_mutex [1, 3, 2] none 0) example_callout 5
      example_world (by decide)).2.2.2⟩

/-! ## Theorems: mutex operations -/

theorem mem_insert_by_priority (p : Objects_Id → Nat) (t x : Objects_Id)
    (l : List Objects_Id) : x ∈ insert_by_priority p t l ↔ x = t ∨ x ∈ l := by
  induction l with
  | nil => simp [insert_by_priority]
  | cons h rest ih =>
    unfold insert_by_priority
    split
    · simp
    · simp only [List.mem_cons, ih]
      tauto

theorem nodup_insert_by_priority (p : Objects_Id → Nat) (t : Objects_Id)
    (l : List Objects_Id) (hl : l.Nodup) (ht : t ∉ l) :
    (insert_by_priority p t l).Nodup := by
  induction l with
  | nil => simp [insert_by_priority]
  | cons h rest ih =>
    unfold insert_by_priority
    have hh : h ∉ rest := (List.nodup_cons.mp hl).1
    have hrest : rest.Nodup := (List.nodup_cons.mp hl).2
    have ht1 : t ≠ h := fun e => ht (by simp [e])
    have ht2 : t ∉ rest := fun e => ht (by simp [e])
    split
    · exact List.nodup_cons.mpr ⟨ht, hl⟩
    · refine List.nodup_cons.mpr ⟨?_, ih hrest ht2⟩
      rw [mem_insert_by_priority]
      rintro (e | e)
      · exact ht1 e.symm
      · exact hh e

theorem mem_enqueue (p : Objects_Id → Nat) (q : Thread_queue_Control) (t x : Objects_Id) :
    x ∈ (enqueue p q t).waiters ↔ x = t ∨ x ∈ q.waiters := by
  unfold enqueue
  cases q.discipline
  · simp only [List.mem_append, List.mem_singleton]
    tauto
  · exact mem_insert_by_priority p t x q.waiters

theorem nodup_enqueue (p : Objects_Id → Nat) (q : Thread_queue_Control) (t : Objects_Id)
    (hq : q.waiters.Nodup) (ht : t ∉ q.waiters) : (enqueue p q t).waiters.Nodup := by
  unfold enqueue
  cases q.discipline
  · simp only
    rw [List.nodup_append]
    refine ⟨hq, by simp, ?_⟩
    intro a ha hb
    simp only [List.mem_singleton] at hb
    subst hb
    exact ht ha
  · exact nodup_insert_by_priority p t q.waiters hq ht

theorem raise_owner_state (protocol : CORE_mutex_Disciplines)
    (threads : Objects_Id → Thread_Control) (o t x : Objects_Id) :
    (raise_owner protocol threads o t x).current_state = (threads x).current_state := by
  unfold raise_owner
  cases protocol <;> simp only
  by_cases hx : x = o
  · subst hx; simp
  · simp [Function.update_noteq hx]

theorem raise_owner_other (protocol : CORE_mutex_Disciplines)
    (threads : Objects_Id → Thread_Control) (o t x : Objects_Id) (hx : x ≠ o) :
    raise_owner protocol threads o t x = threads x := by
  unfold raise_owner
  cases protocol <;> simp [Function.update_noteq hx]

/-- The state after `acquire` on an unlocked mutex. -/
theorem acquire_unlocked (t : Objects_Id) (timeout : Option Nat) (s : System)
    (h : s.mutex.holder = none) :
    acquire t timeout s = (Acquire_result.Granted,
      { threads := Function.update s.threads t (apply_ceiling s.mutex (s.threads t))
        mutex := { s.mutex with holder := some t, nest_count := 1 } }) := by
  unfold acquire
  rw [h]

/-- The state after `acquire` by the owner. -/
theorem acquire_nested (t : Objects_Id) (timeout : Option Nat) (s : System)
    (h : s.mutex.holder = some t) :
    acquire t timeout s =
      if s.mutex.nesting_allowed then
        (Acquire_result.Granted,
          { s with mutex := { s.mutex with nest_count := s.mutex.nest_count + 1 } })
      else (Acquire_result.SelfDeadlock, s) := by
  unfold acquire
  rw [h]
  simp

/-- The state after `acquire` on a mutex locked by another thread. -/
theorem acquire_contended (t o : Objects_Id) (timeout : Option Nat) (s : System)
    (h : s.mutex.holder = some o) (hne : o ≠ t) :
    acquire t timeout s = (Acquire_result.Blocked,
      { threads := Function.update (raise_owner s.mutex.protocol s.threads o t) t
          (transition_to_blocked (raise_owner s.mutex.protocol s.threads o t t)
            s.mutex.Wait_queue.id timeout)
        mutex := { s.mutex with
          Wait_queue := enqueue
            (fun x => (raise_owner s.mutex.protocol s.threads o t x).current_priority)
            s.mutex.Wait_queue t } }) := by
  unfold acquire
  rw [h]
  simp [hne]

theorem transition_to_blocked_not_ready (th : Thread_Control) (q : Objects_Id)
    (timeout : Option Nat) :
    (transition_to_blocked th q timeout).current_state ≠ States_Control.Ready := by
  unfold transition_to_blocked
  cases timeout <;> simp

theorem acquire_well_formed (t : Objects_Id) (timeout : Option Nat) (s : System)
    (hr : (s.threads t).current_state = States_Control.Ready) (h : Well_formed s) :
    Well_formed (acquire t timeout s).2 := by
  have htw : t ∉ s.mutex.Wait_queue.waiters := fun hm => h.waiters_blocked t hm hr
  cases hh : s.mutex.holder with
  | none =>
    rw [acquire_unlocked t timeout s hh]
    have he := h.unlocked_empty hh
    constructor <;> simp [he]
  | some o =>
    by_cases hot : o = t
    · subst hot
      rw [acquire_nested o timeout s hh]
      split
      · exact ⟨h.waiters_blocked, h.waiters_nodup, h.holder_not_waiting,
          fun e => h.unlocked_empty e⟩
      · exact h
    · rw [acquire_contended t o timeout s hh hot]
      have how : o ∉ s.mutex.Wait_queue.waiters := h.holder_not_waiting o hh
      constructor
      · intro x hx
        simp only at hx
        rw [mem_enqueue] at hx
        simp only
        rcases hx with e | e
        · subst e
          simp only [Function.update_same]
          exact transition_to_blocked_not_ready _ _ _
        · have hxt : x ≠ t := fun e2 => htw (e2 ▸ e)
          rw [Function.update_noteq hxt, raise_owner_state]
          exact h.waiters_blocked x e
      · exact nodup_enqueue _ _ _ h.waiters_nodup htw
      · intro o2 ho2
        simp only at ho2
        rw [hh] at ho2
        simp only [Option.some.injEq] at ho2
        subst ho2
        simp only
        rw [mem_enqueue]
        rintro (e | e)
        · exact hot e
        · exact how e
      · intro e
        simp only at e
        rw [hh] at e
        exact absurd e (by simp)

theorem release_not_owner (t : Objects_Id) (s : System) (h : s.mutex.holder ≠ some t) :
    release t s = (Release_result.NotOwner, s) := by
  unfold release
  simp [h]

theorem release_nested (t : Objects_Id) (s : System) (h : s.mutex.holder = some t)
    (hn : 0 < s.mutex.nest_count - 1) :
    release t s = (Release_result.Ok,
      { s with mutex := { s.mutex with nest_count := s.mutex.nest_count - 1 } }) := by
  unfold release
  simp [h, hn]

theorem release_unlock (t : Objects_Id) (s : System) (h : s.mutex.holder = some t)
    (hn : ¬ 0 < s.mutex.nest_count - 1) (hw : s.mutex.Wait_queue.waiters = []) :
    release t s = (Release_result.Ok,
      { threads := Function.update s.threads t
          { s.threads t with current_priority := (s.threads t).real_priority }
        mutex := { s.mutex with holder := none, nest_count := 0 } }) := by
  unfold release extract_one
  simp only [h, hn, hw, if_true, if_false]

theorem release_handoff (t w : Objects_Id) (rest : List Objects_Id) (s : System)
    (h : s.mutex.holder = some t) (hn : ¬ 0 < s.mutex.nest_count - 1)
    (hw : s.mutex.Wait_queue.waiters = w :: rest) :
    release t s = (Release_result.Ok,
      { threads := Function.update
          (Function.update s.threads t
            { s.threads t with current_priority := (s.threads t).real_priority }) w
          (transition_to_ready
            (hand_over_priority s.mutex
              (Function.update s.threads t
                { s.threads t with current_priority := (s.threads t).real_priority }) w rest)
            status_granted)
        mutex := { s.mutex with
          Wait_queue := { s.mutex.Wait_queue with waiters := rest }
          holder := some w, nest_count := 1 } }) := by
  unfold release extract_one
  simp only [h, hn, hw, if_true, if_false]

theorem release_well_formed (t : Objects_Id) (s : System) (h : Well_formed s) :
    Well_formed (release t s).2 := by
  by_cases hh : s.mutex.holder = some t
  · by_cases hn : 0 < s.mutex.nest_count - 1
    · rw [release_nested t s hh hn]
      exact ⟨h.waiters_blocked, h.waiters_nodup, h.holder_not_waiting,
        fun e => h.unlocked_empty e⟩
    · have htw : t ∉ s.mutex.Wait_queue.waiters := h.holder_not_waiting t hh
      cases hw : s.mutex.Wait_queue.waiters with
      | nil =>
        rw [release_unlock t s hh hn hw]
        constructor <;> simp [hw]
      | cons w rest =>
        rw [release_handoff t w rest s hh hn hw]
        have hnd := h.waiters_nodup
        rw [hw] at hnd htw
        have hwr : w ∉ rest := (List.nodup_cons.mp hnd).1
        constructor
        · intro x hx
          simp only at hx
          have hxw : x ≠ w := fun e => hwr (e ▸ hx)
          have hxt : x ≠ t := fun e => htw (by simp [← e, hx])
          simp only
          rw [Function.update_noteq hxw, Function.update_noteq hxt]
          exact h.waiters_blocked x (by simp [hw, hx])
        · exact (List.nodup_cons.mp hnd).2
        · intro o ho
          simp only [Option.some.injEq] at ho
          subst ho
          exact hwr
        · intro e
          simp at e
  · rw [release_not_owner t s hh]
    exact h

theorem timer_expiry_well_formed (t : Objects_Id) (s : System) (h : Well_formed s) :
    Well_formed (timer_expiry t s) := by
  unfold timer_expiry
  split
  · rename_i hc
    constructor
    · intro x hx
      simp only at hx
      have hxm : x ∈ s.mutex.Wait_queue.waiters := List.mem_of_mem_erase hx
      have hxt : x ≠ t := by
        intro e
        subst e
        exact (List.Nodup.mem_erase_iff h.waiters_nodup).mp hx |>.1 rfl
      simp only
      rw [Function.update_noteq hxt]
      exact h.waiters_blocked x hxm
    · exact List.Nodup.erase t h.waiters_nodup
    · intro o ho hm
      exact h.holder_not_waiting o ho (List.mem_of_mem_erase hm)
    · intro e
      simp only at e
      have := h.unlocked_empty e
      simp [this]
  · exact h

theorem step_well_formed (s : System) (op : Mutex_op) (h : Well_formed s) :
    Well_formed (step s op) := by
  cases op with
  | acquire t timeout =>
    simp only [step]
    split
    · rename_i hr
      exact acquire_well_formed t timeout s hr h
    · exact h
  | release t =>
    simp only [step]
    split
    · exact release_well_formed t s h
    · exact h
  | timer_expiry t => exact timer_expiry_well_formed t s h

theorem created_well_formed (threads : Objects_Id → Thread_Control) (queue_id : Objects_Id)
    (discipline : Thread_queue_Disciplines) (protocol : CORE_mutex_Disciplines)
    (ceiling : Nat) (nesting_allowed : Bool) :
    Well_formed (created threads queue_id discipline protocol ceiling nesting_allowed) := by
  constructor <;> simp [created]

theorem handed_over_eq_nil (before after : System)
    (h : ∀ w ∈ before.mutex.Wait_queue.waiters,
      (before.threads w).current_state ≠ States_Control.Ready →
      (after.threads w).current_state = States_Control.Ready →
      (after.threads w).Wait_return_code ≠ status_granted) :
    handed_over before after = [] := by
  unfold handed_over
  rw [List.filter_eq_nil_iff]
  intro w hw
  simp only [Bool.and_eq_true, decide_eq_true_eq, not_and]
  exact h w hw

theorem handed_over_same_threads (before after : System)
    (h : ∀ w ∈ before.mutex.Wait_queue.waiters, after.threads w = before.threads w) :
    handed_over before after = [] := by
  apply handed_over_eq_nil
  intro w hw hb ha
  rw [h w hw] at ha
  exact absurd ha hb

theorem handed_over_head (before after : System) (w : Objects_Id) (rest : List Objects_Id)
    (hw : before.mutex.Wait_queue.waiters = w :: rest)
    (hwb : (before.threads w).current_state ≠ States_Control.Ready)
    (hwa : (after.threads w).current_state = States_Control.Ready ∧
      (after.threads w).Wait_return_code = status_granted)
    (hrest : ∀ x ∈ rest, after.threads x = before.threads x)
    (hrb : ∀ x ∈ rest, (before.threads x).current_state ≠ States_Control.Ready) :
    handed_over before after = [w] := by
  unfold handed_over
  rw [hw, List.filter_cons]
  have hrest2 : List.filter (fun x =>
      decide ((before.threads x).current_state ≠ States_Control.Ready) &&
      (decide ((after.threads x).current_state = States_Control.Ready) &&
        decide ((after.threads x).Wait_return_code = status_granted))) rest = [] := by
    rw [List.filter_eq_nil_iff]
    intro x hx
    simp only [Bool.and_eq_true, decide_eq_true_eq, not_and]
    intro _ hready
    rw [hrest x hx] at hready
    exact absurd hready (hrb x hx)
  rw [hrest2]
  simp [hwb, hwa.1, hwa.2]

theorem replicate_erase (n : Nat) (a : Objects_Id) :
    (List.replicate n a).erase a = List.replicate (n - 1) a := by
  cases n with
  | zero => simp
  | succ k => simp [List.replicate_succ]

theorem owner_grants_some (m : CORE_mutex_Control) (h : Objects_Id) (hh : m.holder = some h) :
    owner_grants m = List.replicate m.nest_count h := by
  unfold owner_grants
  rw [hh]

theorem owner_grants_none (m : CORE_mutex_Control) (hh : m.holder = none) :
    owner_grants m = [] := by
  unfold owner_grants
  rw [hh]

/-- Each operation keeps the grants outstanding equal to the grants the owner
field and the nesting depth stand for, and keeps the owner set exactly when
the nesting depth is not 0. -/
theorem grants_step_eq (s : System) (op : Mutex_op) (grants : List Objects_Id)
    (hwf : Well_formed s) (hinv : s.mutex.owner_iff_nesting)
    (hg : grants = owner_grants s.mutex) :
    (step s op).mutex.owner_iff_nesting ∧
    grants_step s op grants = owner_grants (step s op).mutex := by
  unfold CORE_mutex_Control.owner_iff_nesting at hinv ⊢
  cases op with
  | acquire t timeout =>
    simp only [grants_step, step]
    by_cases hr : (s.threads t).current_state = States_Control.Ready
    · simp only [hr, if_true, true_and]
      have htw : t ∉ s.mutex.Wait_queue.waiters := fun hm => hwf.waiters_blocked t hm hr
      cases hh : s.mutex.holder with
      | none =>
        have he := hwf.unlocked_empty hh
        have hho : handed_over s (acquire t timeout s).2 = [] := by
          unfold handed_over
          rw [he]
          rfl
        rw [hho, acquire_unlocked t timeout s hh]
        rw [hg, owner_grants_none s.mutex hh]
        refine ⟨by simp, ?_⟩
        simp [owner_grants]
      | some o =>
        by_cases hot : o = t
        · subst hot
          have hho : handed_over s (acquire o timeout s).2 = [] := by
            apply handed_over_same_threads
            intro w _
            rw [acquire_nested o timeout s hh]
            split <;> rfl
          rw [hho, acquire_nested o timeout s hh, hg, owner_grants_some s.mutex o hh]
          cases hna : s.mutex.nesting_allowed
          · simp only [Bool.false_eq_true, if_false]
            refine ⟨hinv, ?_⟩
            simp [owner_grants_some s.mutex o hh]
          · simp only [if_true]
            refine ⟨by simp [hh], ?_⟩
            simp [owner_grants, hh, List.replicate_succ]
        · have how : o ∉ s.mutex.Wait_queue.waiters := hwf.holder_not_waiting o hh
          have hho : handed_over s (acquire t timeout s).2 = [] := by
            apply handed_over_same_threads
            intro w hw
            rw [acquire_contended t o timeout s hh hot]
            simp only
            have hwt : w ≠ t := fun e => htw (e ▸ hw)
            have hwo : w ≠ o := fun e => how (e ▸ hw)
            rw [Function.update_noteq hwt, raise_owner_other _ _ _ _ _ hwo]
          rw [hho, acquire_contended t o timeout s hh hot, hg]
          refine ⟨by simpa [hh] using hinv, ?_⟩
          simp [owner_grants, hh]
    · simp only [hr, if_false, false_and]
      refine ⟨hinv, ?_⟩
      rw [handed_over_same_threads s s (fun _ _ => rfl), hg]
      rfl
  | release t =>
    simp only [grants_step, step]
    by_cases hr : (s.threads t).current_state = States_Control.Ready
    · simp only [hr, if_true, true_and]
      by_cases hh : s.mutex.holder = some t
      · have hnz : s.mutex.nest_count ≠ 0 := fun e => by
          have := hinv.mpr e
          rw [hh] at this
          exact absurd this (by simp)
        by_cases hn : 0 < s.mutex.nest_count - 1
        · have hho : handed_over s (release t s).2 = [] := by
            apply handed_over_same_threads
            intro w _
            rw [release_nested t s hh hn]
          rw [hho, release_nested t s hh hn, hg, owner_grants_some s.mutex t hh]
          refine ⟨?_, ?_⟩
          · simp only [hh]
            constructor
            · intro e; exact absurd e (by simp)
            · intro e; omega
          · simp [owner_grants, hh, replicate_erase]
        · have hone : s.mutex.nest_count = 1 := by omega
          have htw : t ∉ s.mutex.Wait_queue.waiters := hwf.holder_not_waiting t hh
          cases hw : s.mutex.Wait_queue.waiters with
          | nil =>
            have hho : handed_over s (release t s).2 = [] := by
              unfold handed_over
              rw [hw]
              rfl
            rw [hho, release_unlock t s hh hn hw, hg, owner_grants_some s.mutex t hh, hone]
            refine ⟨by simp, ?_⟩
            simp [owner_grants]
          | cons w rest =>
            have hnd := hwf.waiters_nodup
            rw [hw] at hnd htw
            have hwr : w ∉ rest := (List.nodup_cons.mp hnd).1
            have hwb : (s.threads w).current_state ≠ States_Control.Ready :=
              hwf.waiters_blocked w (by simp [hw])
            have hho : handed_over s (release t s).2 = [w] := by
              apply handed_over_head s (release t s).2 w rest hw hwb
              · rw [release_handoff t w rest s hh hn hw]
                simp only [Function.update_same]
                exact ⟨rfl, rfl⟩
              · intro x hx
                have hxw : x ≠ w := fun e => hwr (e ▸ hx)
                have hxt : x ≠ t := fun e => htw (by simp [← e, hx])
                rw [release_handoff t w rest s hh hn hw]
                simp only
                rw [Function.update_noteq hxw, Function.update_noteq hxt]
              · intro x hx
                exact hwf.waiters_blocked x (by simp [hw, hx])
            rw [hho, release_handoff t w rest s hh hn hw, hg, owner_grants_some s.mutex t hh,
              hone]
            refine ⟨by simp, ?_⟩
            simp [owner_grants]
      · have hho : handed_over s (release t s).2 = [] := by
          apply handed_over_same_threads
          intro w _
          rw [release_not_owner t s hh]
        rw [hho, release_not_owner t s hh, hg]
        refine ⟨hinv, ?_⟩
        simp
    · simp only [hr, if_false, false_and]
      refine ⟨hinv, ?_⟩
      rw [handed_over_same_threads s s (fun _ _ => rfl), hg]
      rfl
  | timer_expiry t =>
    simp only [grants_step, step]
    have hho : handed_over s (timer_expiry t s) = [] := by
      apply handed_over_eq_nil
      intro w _ hb ha
      unfold timer_expiry at ha ⊢
      split at ha
      · rename_i hc
        rw [if_pos hc]
        simp only at ha ⊢
        by_cases hwt : w = t
        · subst hwt
          rw [Function.update_same]
          simp [transition_to_ready, status_timed_out, status_granted]
        · rw [Function.update_noteq hwt] at ha
          exact absurd ha hb
      · exact absurd ha hb
    rw [hho, hg]
    have hm : (timer_expiry t s).mutex.holder = s.mutex.holder ∧
        (timer_expiry t s).mutex.nest_count = s.mutex.nest_count := by
      unfold timer_expiry
      split <;> exact ⟨rfl, rfl⟩
    refine ⟨by rw [hm.1, hm.2]; exact hinv, ?_⟩
    simp [owner_grants, hm.1, hm.2]

theorem outstanding_grants_eq (s : System) (ops : List Mutex_op) (grants : List Objects_Id)
    (hwf : Well_formed s) (hinv : s.mutex.owner_iff_nesting)
    (hg : grants = owner_grants s.mutex) :
    (run s ops).mutex.owner_iff_nesting ∧
    outstanding_grants s ops grants = owner_grants (run s ops).mutex := by
  induction ops generalizing s grants with
  | nil => exact ⟨hinv, hg⟩
  | cons op rest ih =>
    obtain ⟨h1, h2⟩ := grants_step_eq s op grants hwf hinv hg
    exact ih (step s op) (grants_step s op grants) (step_well_formed s op hwf) h1 h2

/-! ### C6 -/

/-- C6: for all sequences of acquire and release operations (and timer
expiries) on a mutex as created, with any thread table, discipline, protocol,
ceiling and recursion policy: the grants outstanding, counted from the
results the operations give their callers (one grant for each Granted acquire
and each hand-off to a waiter, one grant back for each Ok release), are
exactly as many grants of the owner as the nesting depth; so every thread
with a grant outstanding is the thread the owner field names, no two threads
hold the mutex at once, an unlocked mutex has no grant outstanding, and an
acquire that returns Granted leaves its caller as the owner. -/
theorem C6_mutual_exclusion (threads : Objects_Id → Thread_Control) (queue_id : Objects_Id)
    (discipline : Thread_queue_Disciplines) (protocol : CORE_mutex_Disciplines)
    (ceiling : Nat) (nesting_allowed : Bool) (ops : List Mutex_op) :
    outstanding_grants (created threads queue_id discipline protocol ceiling nesting_allowed)
        ops [] =
      owner_grants
        (run (created threads queue_id discipline protocol ceiling nesting_allowed) ops).mutex ∧
    (∀ a ∈ outstanding_grants
        (created threads queue_id discipline protocol ceiling nesting_allowed) ops [],
      (run (created threads queue_id discipline protocol ceiling nesting_allowed)
        ops).mutex.holder = some a) ∧
    (∀ a ∈ outstanding_grants
        (created threads queue_id discipline protocol ceiling nesting_allowed) ops [],
      ∀ b ∈ outstanding_grants
        (created threads queue_id discipline protocol ceiling nesting_allowed) ops [],
      a = b) ∧
    (outstanding_grants (created threads queue_id discipline protocol ceiling nesting_allowed)
        ops []).length =
      (run (created threads queue_id discipline protocol ceiling nesting_allowed)
        ops).mutex.nest_count ∧
    (run (created threads queue_id discipline protocol ceiling nesting_allowed)
      ops).mutex.owner_iff_nesting ∧
    (∀ t timeout,
      (acquire t timeout
        (run (created threads queue_id discipline protocol ceiling nesting_allowed)
          ops)).1 = Acquire_result.Granted →
      (acquire t timeout
        (run (created threads queue_id discipline protocol ceiling nesting_allowed)
          ops)).2.mutex.holder = some t) := by
  have hwf0 := created_well_formed threads queue_id discipline protocol ceiling
    nesting_allowed
  have hinv0 : (created threads queue_id discipline protocol ceiling
      nesting_allowed).mutex.owner_iff_nesting := by
    simp [CORE_mutex_Control.owner_iff_nesting, created]
  obtain ⟨hinv, hg⟩ := outstanding_grants_eq
    (created threads queue_id discipline protocol ceiling nesting_allowed) ops [] hwf0 hinv0
    (by simp [owner_grants, created])
  generalize outstanding_grants
    (created threads queue_id discipline protocol ceiling nesting_allowed) ops [] = g at hg
  generalize run (created threads queue_id discipline protocol ceiling nesting_allowed) ops
    = s at hg hinv
  have hmem : ∀ a ∈ g, s.mutex.holder = some a := by
    intro a ha
    rw [hg] at ha
    unfold owner_grants at ha
    cases hh : s.mutex.holder with
    | none => simp [hh] at ha
    | some h =>
      simp only [hh] at ha
      rw [(List.mem_replicate.mp ha).2]
  refine ⟨hg, hmem, ?_, ?_, hinv, ?_⟩
  · intro a ha b hb
    have h1 := hmem a ha
    have h2 := hmem b hb
    rw [h1] at h2
    exact Option.some.inj h2
  · rw [hg]
    unfold owner_grants
    cases hh : s.mutex.holder with
    | none =>
      have := hinv.mp hh
      simp [this]
    | some h => simp
  · intro t timeout hgr
    cases hh : s.mutex.holder with
    | none =>
      rw [acquire_unlocked t timeout s hh]
    | some o =>
      by_cases hot : o = t
      · subst hot
        rw [acquire_nested o timeout s hh] at hgr ⊢
        split at hgr
        · rename_i hna
          simp [hna, hh]
        · simp at hgr
      · rw [acquire_contended t o timeout s hh hot] at hgr
        simp at hgr

/-- C6 on two runs: after thread 1 acquired twice, thread 2 blocked and thread 1
released once, thread 1 still has its one grant and is the owner, thread 2
has none; after thread 1 acquired, threads 2 and 3 blocked and thread 1
released, the one grant outstanding is that of thread 2. -/
theorem C6_mutual_exclusion_witness :
    outstanding_grants (example_system Thread_queue_Disciplines.FIFO) example_nested_ops []
      = [1] ∧
    (run (example_system Thread_queue_Disciplines.FIFO) example_nested_ops).mutex.holder
      = some 1 ∧
    outstanding_grants (example_system Thread_queue_Disciplines.FIFO) example_ops [] = [2] :=
  ⟨(C6_mutual_exclusion (ready_threads example_priorities) 100
      Thread_queue_Disciplines.FIFO CORE_mutex_Disciplines.INHERIT 0 true
      example_nested_ops).1.trans (by decide),
   (C6_mutual_exclusion (ready_threads example_priorities) 100
      Thread_queue_Disciplines.FIFO CORE_mutex_Disciplines.INHERIT 0 true
      example_nested_ops).2.1 1 (by decide),
   (C6_mutual_exclusion (ready_threads example_priorities) 100
      Thread_queue_Disciplines.FIFO CORE_mutex_Disciplines.INHERIT 0 true
      example_ops).1.trans (by decide)⟩

/-! ### C7 -/

/-- C8: `frame_buffer_control` with a valid minor (0): for command
FBIOPUT_VSCREENINFO it sets `ioctl_return` to -1 and returns RTEMS_UNSATISFIED;
for every other command it returns RTEMS_SUCCESSFUL, with `ioctl_return` equal
to the result of the matching helper for FBIOGET_FSCREENINFO,
FBIOGET_VSCREENINFO, FBIOGETCMAP and FBIOPUTCMAP, and equal to 0 for every
unrecognised command. -/
theorem C8_frame_buffer_control (k : Platform_constants) (hk : k.distinct_commands)
    (major minor : Nat) (hminor : minor < FB_CIRRUS_MAX_CARDS)
    (args : rtems_libio_ioctl_args_t) (d : Fb_driver) :
    (args.command = k.FBIOPUT_VSCREENINFO →
      (frame_buffer_control k major minor args d).1 = rtems_status_code.RTEMS_UNSATISFIED ∧
      (frame_buffer_control k major minor args d).2.2.ioctl_return = -1) ∧
    (args.command ≠ k.FBIOPUT_VSCREENINFO →
      (frame_buffer_control k major minor args d).1 = rtems_status_code.RTEMS_SUCCESSFUL) ∧
    (args.command = k.FBIOGET_FSCREENINFO →
      (frame_buffer_control k major minor args d).2.2.ioctl_return =
        (get_fix_screen_info d.fb_cirrus args.buffer.fix_info).1) ∧
    (args.command = k.FBIOGET_VSCREENINFO →
      (frame_buffer_control k major minor args d).2.2.ioctl_return =
        (get_var_screen_info d.fb_cirrus args.buffer.var_info).1) ∧
    (args.command = k.FBIOGETCMAP →
      (frame_buffer_control k major minor args d).2.2.ioctl_return =
        (get_palette d args.buffer.cmap).1) ∧
    (args.command = k.FBIOPUTCMAP →
      (frame_buffer_control k major minor args d).2.2.ioctl_return =
        (set_palette d args.buffer.cmap).1) ∧
    (args.command ≠ k.FBIOGET_FSCREENINFO → args.command ≠ k.FBIOGET_VSCREENINFO →
      args.command ≠ k.FBIOPUT_VSCREENINFO → args.command ≠ k.FBIOGETCMAP →
      args.command ≠ k.FBIOPUTCMAP →
      (frame_buffer_control k major minor args d).2.2.ioctl_return = 0) := by
  have hm : ¬ minor ≥ FB_CIRRUS_MAX_CARDS := Nat.not_le.mpr hminor
  unfold Platform_constants.distinct_commands at hk
  simp only [List.nodup_cons, List.mem_cons, List.mem_singleton, not_or, List.not_mem_nil,
    not_false_eq_true, List.nodup_nil, and_true] at hk
  obtain ⟨⟨h12, h13, h14, h15⟩, ⟨h23, h24, h25⟩, ⟨h34, h35⟩, h45⟩ := hk
  refine ⟨?_, ?_, ?_, ?_, ?_, ?_, ?_⟩
  · intro hc
    have e1 : ¬ k.FBIOPUT_VSCREENINFO = k.FBIOGET_FSCREENINFO := fun e => h13 e.symm
    have e2 : ¬ k.FBIOPUT_VSCREENINFO = k.FBIOGET_VSCREENINFO := fun e => h23 e.symm
    simp [frame_buffer_control, hm, hc, e1, e2]
  · intro hc
    unfold frame_buffer_control
    simp only [hm, if_false, hc]
    split_ifs <;> rfl
  · intro hc
    simp [frame_buffer_control, hm, hc]
  · intro hc
    have e1 : ¬ k.FBIOGET_VSCREENINFO = k.FBIOGET_FSCREENINFO := fun e => h12 e.symm
    simp [frame_buffer_control, hm, hc, e1]
  · intro hc
    have e1 : ¬ k.FBIOGETCMAP = k.FBIOGET_FSCREENINFO := fun e => h14 e.symm
    have e2 : ¬ k.FBIOGETCMAP = k.FBIOGET_VSCREENINFO := fun e => h24 e.symm
    have e3 : ¬ k.FBIOGETCMAP = k.FBIOPUT_VSCREENINFO := fun e => h34 e.symm
    simp [frame_buffer_control, hm, hc, e1, e2, e3]
  · intro hc
    have e1 : ¬ k.FBIOPUTCMAP = k.FBIOGET_FSCREENINFO := fun e => h15 e.symm
    have e2 : ¬ k.FBIOPUTCMAP = k.FBIOGET_VSCREENINFO := fun e => h25 e.symm
    have e3 : ¬ k.FBIOPUTCMAP = k.FBIOPUT_VSCREENINFO := fun e => h35 e.symm
    have e4 : ¬ k.FBIOPUTCMAP = k.FBIOGETCMAP := fun e => h45 e.symm
    simp [frame_buffer_control, hm, hc, e1, e2, e3, e4]
  · intro c1 c2 c3 c4 c5
    simp [frame_buffer_control, hm, c1, c2, c3, c4, c5]

/-- C8 with the command numbers of the RTEMS headers: FBIOPUT_VSCREENINFO
(0x4601) gives -1 and RTEMS_UNSATISFIED, FBIOGETCMAP (0x4604) for entries 2
to 4 gives 0 and for entries 10 to 19 gives 1, the unknown command 0x4699
gives 0, each with RTEMS_SUCCESSFUL. -/
theorem C8_frame_buffer_control_witness :
    example_constants.distinct_commands ∧
    (frame_buffer_control example_constants 0 0 (example_ioctl_args 0x4601 0 0)
      example_driver).1 = rtems_status_code.RTEMS_UNSATISFIED ∧
    (frame_buffer_control example_constants 0 0 (example_ioctl_args 0x4601 0 0)
      example_driver).2.2.ioctl_return = -1 ∧
    (frame_buffer_control example_constants 0 0 (example_ioctl_args 0x4604 2 3)
      example_driver).1 = rtems_status_code.RTEMS_SUCCESSFUL ∧
    (frame_buffer_control example_constants 0 0 (example_ioctl_args 0x4604 2 3)
      example_driver).2.2.ioctl_return = 0 ∧
    (frame_buffer_control example_constants 0 0 (example_ioctl_args 0x4604 10 10)
      example_driver).2.2.ioctl_return = 1 ∧
    (frame_buffer_control example_constants 0 0 (example_ioctl_args 0x4699 0 0)
      example_driver).2.2.ioctl_return = 0 :=
  have hk : example_constants.distinct_commands := by
    unfold Platform_constants.distinct_commands
    decide
  ⟨hk,
   ((C8_frame_buffer_control example_constants hk 0 0 (by decide)
      (example_ioctl_args 0x4601 0 0) example_driver).1 rfl).1,
   ((C8_frame_buffer_control example_constants hk 0 0 (by decide)
      (example_ioctl_args 0x4601 0 0) example_driver).1 rfl).2,
   (C8_frame_buffer_control example_constants hk 0 0 (by decide)
      (example_ioctl_args 0x4604 2 3) example_driver).2.1 (by decide),
   ((C8_frame_buffer_control example_constants hk 0 0 (by decide)
      (example_ioctl_args 0x4604 2 3) example_driver).2.2.2.2.1 rfl).trans (by decide),
   ((C8_frame_buffer_control example_constants hk 0 0 (by decide)
      (example_ioctl_args 0x4604 10 10) example_driver).2.2.2.2.1 rfl).trans (by decide),
   (C8_frame_buffer_control example_constants hk 0 0 (by decide)
      (example_ioctl_args 0x4699 0 0) example_driver).2.2.2.2.2.2
      (by decide) (by decide) (by decide) (by decide) (by decide)⟩

/-! ### C9 -/

/-- C9: only one card is supported: for every minor at or above
FB_CIRRUS_MAX_CARDS (= 1), each of `frame_buffer_initialize`,
`frame_buffer_open`, `frame_buffer_read`, `frame_buffer_write` and
`frame_buffer_control` returns RTEMS_UNSATISFIED and leaves the driver state
(the `fb_cirrus` element, the palette tables, the open mutex, the video
memory) and the caller's argument block unchanged. -/
theorem C9_unsupported_minor {α : Type} (k : Platform_constants) (cfg : Fb_cirrus_tunables)
    (env : Environment) (major minor : Nat) (hminor : minor ≥ FB_CIRRUS_MAX_CARDS)
    (arg : α) (rw_args : rtems_libio_rw_args_t) (args : rtems_libio_ioctl_args_t)
    (d : Fb_driver) :
    FB_CIRRUS_MAX_CARDS = 1 ∧
    frame_buffer_initialize env major minor arg d =
      (Driver_outcome.returned rtems_status_code.RTEMS_UNSATISFIED, d, arg) ∧
    frame_buffer_open k cfg env major minor arg d =
      (rtems_status_code.RTEMS_UNSATISFIED, d, arg) ∧
    frame_buffer_read major minor rw_args d =
      (rtems_status_code.RTEMS_UNSATISFIED, d, rw_args) ∧
    frame_buffer_write major minor rw_args d =
      (rtems_status_code.RTEMS_UNSATISFIED, d, rw_args) ∧
    frame_buffer_control k major minor args d =
      (rtems_status_code.RTEMS_UNSATISFIED, d, args) := by
  refine ⟨rfl, ?_, ?_, ?_, ?_, ?_⟩
  · unfold frame_buffer_initialize
    rw [if_pos hminor]
  · unfold frame_buffer_open
    rw [if_pos hminor]
  · unfold frame_buffer_read
    rw [if_pos hminor]
  · unfold frame_buffer_write
    rw [if_pos hminor]
  · unfold frame_buffer_control
    rw [if_pos hminor]

/-- C9 at minor 1 and minor 7. -/
theorem C9_unsupported_minor_witness :
    ( frame_buffer_initialize example_environment 0 1 () example_driver).1 =
      Driver_outcome.returned rtems_status_code.RTEMS_UNSATISFIED ∧
    (frame_buffer_open example_constants default_tunables example_environment 0 1 ()
      example_driver).1 = rtems_status_code.RTEMS_UNSATISFIED ∧
    (frame_buffer_control example_constants 0 7 (example_ioctl_args 0x4605 0 4)
      example_driver).2.2 = example_ioctl_args 0x4605 0 4 :=
  ⟨congrArg Prod.fst
     (C9_unsupported_minor example_constants default_tunables example_environment 0 1
       (by decide) () (example_rw_args 0 0) (example_ioctl_args 0 0 0) example_driver).2.1,
   congrArg Prod.fst
     (C9_unsupported_minor example_constants default_tunables example_environment 0 1
       (by decide) () (example_rw_args 0 0) (example_ioctl_args 0 0 0) example_driver).2.2.1,
   congrArg (fun r => r.2.2)
     (C9_unsupported_minor example_constants default_tunables example_environment 0 7
       (by decide) () (example_rw_args 0 0) (example_ioctl_args 0x4605 0 4)
       example_driver).2.2.2.2.2⟩

/-! ### C10 -/

/-- The state `frame_buffer_open` leaves in `fb_cirrus` when it succeeds is that
of the geometry part; its success means the minor was valid and the mutex
free. -/
theorem frame_buffer_open_successful {α : Type} (k : Platform_constants)
    (cfg : Fb_cirrus_tunables) (env : Environment) (major minor : Nat) (arg : α)
    (d : Fb_driver)
    (hok : (frame_buffer_open k cfg env major minor arg d).1 =
      rtems_status_code.RTEMS_SUCCESSFUL) :
    ∃ fbst, (frame_buffer_open k cfg env major minor arg d).2.1.fb_cirrus =
      open_geometry k cfg fbst := by
  unfold frame_buffer_open at hok ⊢
  by_cases h1 : minor ≥ FB_CIRRUS_MAX_CARDS
  · rw [if_pos h1] at hok
    exact absurd hok (by simp)
  · rw [if_neg h1] at hok ⊢
    by_cases h2 : d.mutex_locked = true
    · rw [if_pos h2] at hok
      exact absurd hok (by simp)
    · rw [if_neg h2]
      exact ⟨_, rfl⟩

theorem open_geometry_line_length (k : Platform_constants) (mode bpp : Nat)
    (fbst : fb_cirrus_state) (hmode : mode = 0 ∨ mode = 1)
    (hbpp : bpp = 8 ∨ bpp = 16 ∨ bpp = 24 ∨ bpp = 32) :
    (open_geometry k ⟨mode, bpp⟩ fbst).fb_var.bits_per_pixel = bpp ∧
    (open_geometry k ⟨mode, bpp⟩ fbst).fb_var.xres =
      (if mode = 0 then 640 else 800) ∧
    (open_geometry k ⟨mode, bpp⟩ fbst).fb_var.yres =
      (if mode = 0 then 480 else 600) ∧
    (open_geometry k ⟨mode, bpp⟩ fbst).fb_fix.smem_len = 0x1000000 ∧
    (open_geometry k ⟨mode, bpp⟩ fbst).fb_fix.line_length =
      ((if mode = 0 then 640 else 800) * bpp + 7) / 8 := by
  rcases hmode with rfl | rfl <;> rcases hbpp with rfl | rfl | rfl | rfl <;>
    exact ⟨rfl, rfl, rfl, rfl, rfl⟩

theorem to_int32_of_small (x : Int) (h0 : 0 ≤ x) (h1 : x < 2147483648) : to_int32 x = x := by
  unfold to_int32
  omega

theorem to_uint32_of_nat (n : Nat) (h : n < 4294967296) : to_uint32 (n : Int) = n := by
  unfold to_uint32
  omega

/-- Without overflow `line_bytes` is the rounded-up eighth of the bits of a
line. -/
theorem line_bytes_eq (x bpp : Nat) (hx : x ≤ 800) (hbpp : 800 * bpp + 7 < 2147483648) :
    to_uint32 (line_bytes x bpp) = (x * bpp + 7) / 8 := by
  have h1 : x * bpp ≤ 800 * bpp := Nat.mul_le_mul_right bpp hx
  have h2 : (x * bpp) % 4294967296 = x * bpp := Nat.mod_eq_of_lt (by omega)
  have e1 : to_int32 ((x * bpp : Nat) : Int) = ((x * bpp : Nat) : Int) :=
    to_int32_of_small _ (by omega) (by omega)
  have e2 : to_int32 (((x * bpp : Nat) : Int) + 7) = ((x * bpp + 7 : Nat) : Int) := by
    rw [to_int32_of_small _ (by omega) (by omega)]
    push_cast
    rfl
  have e3 : Int.tdiv ((x * bpp + 7 : Nat) : Int) 8 = (((x * bpp + 7) / 8 : Nat) : Int) := by
    rw [Int.ofNat_tdiv]
    rfl
  have e4 : to_int32 (((x * bpp + 7) / 8 : Nat) : Int) = (((x * bpp + 7) / 8 : Nat) : Int) :=
    to_int32_of_small _ (by omega) (by omega)
  unfold line_bytes
  rw [h2, e1, e2, e3, e4]
  exact to_uint32_of_nat _ (by omega)

theorem to_uint32_640 : to_uint32 (640 : Int) = 640 := by decide

theorem to_uint32_800 : to_uint32 (800 : Int) = 800 := by decide

theorem to_uint32_0 : to_uint32 (0 : Int) = 0 := by decide

theorem open_geometry_fields (k : Platform_constants) (mode bpp : Nat)
    (fbst : fb_cirrus_state) :
    (open_geometry k ⟨mode, bpp⟩ fbst).fb_fix.line_length =
      to_uint32 (line_bytes (open_geometry k ⟨mode, bpp⟩ fbst).fb_var.xres
        (open_geometry k ⟨mode, bpp⟩ fbst).fb_var.bits_per_pixel) ∧
    (open_geometry k ⟨mode, bpp⟩ fbst).fb_var.xres =
      to_uint32 (fb_cirrus_std_modelines.getD mode fb_cirrus_no_modeline).hdisplay ∧
    (open_geometry k ⟨mode, bpp⟩ fbst).fb_var.bits_per_pixel = bpp % 4294967296 := by
  refine ⟨?_, ?_, ?_⟩ <;> simp only [open_geometry]

/-- Without overflow the line length of the geometry part is the rounded-up
eighth of the bits of a line. -/
theorem open_geometry_ceiling (k : Platform_constants) (mode bpp : Nat)
    (fbst : fb_cirrus_state) (hmode : mode < 3) (hbpp : 800 * bpp + 7 < 2147483648) :
    (open_geometry k ⟨mode, bpp⟩ fbst).fb_fix.line_length =
      ((open_geometry k ⟨mode, bpp⟩ fbst).fb_var.xres *
        (open_geometry k ⟨mode, bpp⟩ fbst).fb_var.bits_per_pixel + 7) / 8 := by
  have hb : bpp % 4294967296 = bpp := Nat.mod_eq_of_lt (by omega)
  obtain ⟨hl, hx, hbp⟩ := open_geometry_fields k mode bpp fbst
  rw [hl, hx, hbp, hb]
  have hcases : mode = 0 ∨ mode = 1 ∨ mode = 2 := by omega
  rcases hcases with rfl | rfl | rfl
  · have e : to_uint32 (fb_cirrus_std_modelines.getD 0 fb_cirrus_no_modeline).hdisplay = 640 :=
      to_uint32_640
    rw [e]
    exact line_bytes_eq 640 bpp (by omega) hbpp
  · have e : to_uint32 (fb_cirrus_std_modelines.getD 1 fb_cirrus_no_modeline).hdisplay = 800 :=
      to_uint32_800
    rw [e]
    exact line_bytes_eq 800 bpp (by omega) hbpp
  · have e : to_uint32 (fb_cirrus_std_modelines.getD 2 fb_cirrus_no_modeline).hdisplay = 0 :=
      to_uint32_0
    rw [e]
    exact line_bytes_eq 0 bpp (by omega) hbpp

theorem ceil_eighth (n : Nat) : ⌈((n : Nat) : ℚ) / 8⌉₊ = (n + 7) / 8 := by
  by_cases hn : n = 0
  · subst hn
    simp
  · have hm : (n + 7) / 8 ≠ 0 := by omega
    rw [Nat.ceil_eq_iff hm]
    have h1 : 8 * ((n + 7) / 8 - 1) < n := by omega
    have h2 : n ≤ 8 * ((n + 7) / 8) := by omega
    have h1q : (8 : ℚ) * (((n + 7) / 8 - 1 : Nat) : ℚ) < (n : ℚ) := by exact_mod_cast h1
    have h2q : (n : ℚ) ≤ (8 : ℚ) * (((n + 7) / 8 : Nat) : ℚ) := by exact_mod_cast h2
    constructor
    · rw [lt_div_iff₀ (by norm_num : (0 : ℚ) < 8)]
      linarith
    · rw [div_le_iff₀ (by norm_num : (0 : ℚ) < 8)]
      linarith

/-- C10: after a successful `frame_buffer_open` with the default configuration
(mode 0, 24 bits per pixel) the geometry is xres = 640, yres = 480,
bits_per_pixel = 24, smem_len = 0x1000000 and line_length = 1920; in general
(any entry of the modeline table, any depth that does not overflow the line
computation) a successful open leaves line_length equal to the ceiling of
xres * bits_per_pixel / 8; and for either standard modeline at every
supported depth (8, 16, 24, 32) line_length * yres is at most smem_len. -/
theorem C10_open_geometry {α : Type} (k : Platform_constants) (env : Environment)
    (major minor : Nat) (arg : α) (d : Fb_driver) :
    ((frame_buffer_open k default_tunables env major minor arg d).1 =
        rtems_status_code.RTEMS_SUCCESSFUL →
      (frame_buffer_open k default_tunables env major minor arg d).2.1.fb_cirrus.fb_var.xres
        = 640 ∧
      (frame_buffer_open k default_tunables env major minor arg d).2.1.fb_cirrus.fb_var.yres
        = 480 ∧
      (frame_buffer_open k default_tunables env major minor arg
        d).2.1.fb_cirrus.fb_var.bits_per_pixel = 24 ∧
      (frame_buffer_open k default_tunables env major minor arg
        d).2.1.fb_cirrus.fb_fix.smem_len = 0x1000000 ∧
      (frame_buffer_open k default_tunables env major minor arg
        d).2.1.fb_cirrus.fb_fix.line_length = 1920) ∧
    (∀ mode bpp : Nat, mode < 3 → 800 * bpp + 7 < 2147483648 →
      (frame_buffer_open k ⟨mode, bpp⟩ env major minor arg d).1 =
        rtems_status_code.RTEMS_SUCCESSFUL →
      (frame_buffer_open k ⟨mode, bpp⟩ env major minor arg d).2.1.fb_cirrus.fb_fix.line_length =
        ((frame_buffer_open k ⟨mode, bpp⟩ env major minor arg d).2.1.fb_cirrus.fb_var.xres *
          (frame_buffer_open k ⟨mode, bpp⟩ env major minor arg
            d).2.1.fb_cirrus.fb_var.bits_per_pixel + 7) / 8 ∧
      (frame_buffer_open k ⟨mode, bpp⟩ env major minor arg d).2.1.fb_cirrus.fb_fix.line_length =
        ⌈(((frame_buffer_open k ⟨mode, bpp⟩ env major minor arg
            d).2.1.fb_cirrus.fb_var.xres *
          (frame_buffer_open k ⟨mode, bpp⟩ env major minor arg
            d).2.1.fb_cirrus.fb_var.bits_per_pixel : Nat) : ℚ) / 8⌉₊) ∧
    (∀ mode bpp : Nat, mode = 0 ∨ mode = 1 → bpp = 8 ∨ bpp = 16 ∨ bpp = 24 ∨ bpp = 32 →
      (frame_buffer_open k ⟨mode, bpp⟩ env major minor arg d).1 =
        rtems_status_code.RTEMS_SUCCESSFUL →
      (frame_buffer_open k ⟨mode, bpp⟩ env major minor arg d).2.1.fb_cirrus.fb_fix.line_length *
        (frame_buffer_open k ⟨mode, bpp⟩ env major minor arg d).2.1.fb_cirrus.fb_var.yres ≤
        (frame_buffer_open k ⟨mode, bpp⟩ env major minor arg
          d).2.1.fb_cirrus.fb_fix.smem_len) := by
  refine ⟨?_, ?_, ?_⟩
  · intro hok
    obtain ⟨fbst, hf⟩ := frame_buffer_open_successful k default_tunables env major minor arg d hok
    rw [hf]
    obtain ⟨h1, h2, h3, h4, h5⟩ :=
      open_geometry_line_length k 0 24 fbst (Or.inl rfl) (by decide)
    exact ⟨h2, h3, h1, h4, h5⟩
  · intro mode bpp hmode hbpp hok
    obtain ⟨fbst, hf⟩ := frame_buffer_open_successful k ⟨mode, bpp⟩ env major minor arg d hok
    rw [hf]
    have hc := open_geometry_ceiling k mode bpp fbst hmode hbpp
    exact ⟨hc, by rw [ceil_eighth]; exact hc⟩
  · intro mode bpp hmode hbpp hok
    obtain ⟨fbst, hf⟩ := frame_buffer_open_successful k ⟨mode, bpp⟩ env major minor arg d hok
    rw [hf]
    obtain ⟨_, _, h3, h4, h5⟩ := open_geometry_line_length k mode bpp fbst hmode hbpp
    rw [h5, h3, h4]
    rcases hmode with rfl | rfl <;> rcases hbpp with rfl | rfl | rfl | rfl <;> decide

/-- C10 on the example card: the open succeeds and reports 640 x 480 at 24 bits
per pixel with lines of 1920 bytes; at 800 x 600 and 16 bits per pixel the
lines are 1600 bytes, the rounded-up eighth of 800 * 16 bits; at 800 x 600 and
32 bits per pixel the picture fits the 16 MiB. -/
theorem C10_open_geometry_witness :
    (frame_buffer_open example_constants default_tunables example_environment 0 0 ()
      example_driver).1 = rtems_status_code.RTEMS_SUCCESSFUL ∧
    (frame_buffer_open example_constants default_tunables example_environment 0 0 ()
      example_driver).2.1.fb_cirrus.fb_fix.line_length = 1920 ∧
    (frame_buffer_open example_constants ⟨1, 16⟩ example_environment 0 0 ()
      example_driver).2.1.fb_cirrus.fb_fix.line_length = 1600 ∧
    (frame_buffer_open example_constants ⟨1, 32⟩ example_environment 0 0 ()
      example_driver).2.1.fb_cirrus.fb_fix.line_length *
      (frame_buffer_open example_constants ⟨1, 32⟩ example_environment 0 0 ()
        example_driver).2.1.fb_cirrus.fb_var.yres ≤
      (frame_buffer_open example_constants ⟨1, 32⟩ example_environment 0 0 ()
        example_driver).2.1.fb_cirrus.fb_fix.smem_len :=
  ⟨by decide,
   ((C10_open_geometry example_constants example_environment 0 0 () example_driver).1
      (by decide)).2.2.2.2,
   (((C10_open_geometry example_constants example_environment 0 0 ()
      example_driver).2.1 1 16 (by decide) (by decide) (by decide)).1).trans (by decide),
   (C10_open_geometry example_constants example_environment 0 0 ()
      example_driver).2.2 1 32 (by decide) (by decide) (by decide)⟩

/-! ### C11 -/

theorem palette_accepted_iff (cmap : fb_cmap) :
    palette_rejected cmap = false ↔ (cmap.start + cmap.len) % 4294967296 < 16 := by
  unfold palette_rejected
  simp

theorem get_palette_returns (d : Fb_driver) (cmap : fb_cmap) :
    (get_palette d cmap).1 = if palette_rejected cmap then 1 else 0 := by
  unfold get_palette
  cases palette_rejected cmap <;> simp

theorem set_palette_returns (d : Fb_driver) (cmap : fb_cmap) :
    (set_palette d cmap).1 = if palette_rejected cmap then 1 else 0 := by
  unfold set_palette
  cases palette_rejected cmap <;> simp

/-- When `start + len` does not wrap around in 32 bits, an accepted request
uses indices below 16 only. -/
theorem palette_indices_below_16 (cmap : fb_cmap)
    (hsum : cmap.start + cmap.len < 4294967296) (hacc : palette_rejected cmap = false) :
    ∀ x ∈ palette_indices cmap, x < 16 := by
  intro x hx
  unfold palette_indices at hx
  rw [List.mem_map] at hx
  obtain ⟨i, hi, rfl⟩ := hx
  rw [List.mem_range] at hi
  rw [palette_accepted_iff, Nat.mod_eq_of_lt hsum] at hacc
  unfold palette_index
  omega

/-- C11 at the request start = 4294967295, len = 1: the sum wraps around to 0,
so `get_palette` and `set_palette` accept the request and return 0 (also
through `frame_buffer_control` with FBIOGETCMAP and FBIOPUTCMAP), and the
index they use for i = 0 is 4294967295, outside the 16 entries of `red16`,
`green16` and `blue16`. -/
theorem C11_accepted_request_outside_tables :
    (example_cmap 4294967295 1).start < 4294967296 ∧
    (example_cmap 4294967295 1).len < 4294967296 ∧
    (get_palette example_driver (example_cmap 4294967295 1)).1 = 0 ∧
    (set_palette example_driver (example_cmap 4294967295 1)).1 = 0 ∧
    (frame_buffer_control example_constants 0 0 (example_ioctl_args 0x4604 4294967295 1)
      example_driver).1 = rtems_status_code.RTEMS_SUCCESSFUL ∧
    (frame_buffer_control example_constants 0 0 (example_ioctl_args 0x4604 4294967295 1)
      example_driver).2.2.ioctl_return = 0 ∧
    (frame_buffer_control example_constants 0 0 (example_ioctl_args 0x4605 4294967295 1)
      example_driver).2.2.ioctl_return = 0 ∧
    palette_indices (example_cmap 4294967295 1) = [4294967295] ∧
    example_driver.red16.length = 16 ∧
    example_driver.green16.length = 16 ∧
    example_driver.blue16.length = 16 ∧
    ¬ (∀ i, i < (example_cmap 4294967295 1).len →
        palette_index (example_cmap 4294967295 1) i < 16) := by
  refine ⟨by decide, by decide, by decide, by decide, by decide, by decide, by decide,
    by decide, by decide, by decide, by decide, ?_⟩
  intro h
  exact absurd (h 0 (by decide)) (by decide)

/-! ### C12 -/

theorem frame_buffer_read_bytes_moved (major minor : Nat) (hminor : minor < FB_CIRRUS_MAX_CARDS)
    (rw_args : rtems_libio_rw_args_t) (d : Fb_driver) :
    (frame_buffer_read major minor rw_args d).1 = rtems_status_code.RTEMS_SUCCESSFUL ∧
    (frame_buffer_read major minor rw_args d).2.2.bytes_moved =
      bytes_to_move d.fb_cirrus rw_args := by
  have hm : ¬ minor ≥ FB_CIRRUS_MAX_CARDS := Nat.not_le.mpr hminor
  unfold frame_buffer_read
  rw [if_neg hm]
  exact ⟨rfl, rfl⟩

theorem frame_buffer_write_bytes_moved (major minor : Nat) (hminor : minor < FB_CIRRUS_MAX_CARDS)
    (rw_args : rtems_libio_rw_args_t) (d : Fb_driver) :
    (frame_buffer_write major minor rw_args d).1 = rtems_status_code.RTEMS_SUCCESSFUL ∧
    (frame_buffer_write major minor rw_args d).2.2.bytes_moved =
      bytes_to_move d.fb_cirrus rw_args := by
  have hm : ¬ minor ≥ FB_CIRRUS_MAX_CARDS := Nat.not_le.mpr hminor
  unfold frame_buffer_write
  rw [if_neg hm]
  exact ⟨rfl, rfl⟩

/-- For an offset from 0 up to `smem_len` the value stored in `bytes_moved` is
at most the count, ends inside the frame buffer, and is the count itself when
the whole request fits. -/
theorem bytes_to_move_in_range (fbst : fb_cirrus_state) (rw_args : rtems_libio_rw_args_t)
    (h0 : 0 ≤ rw_args.offset) (hoff : rw_args.offset ≤ (fbst.fb_fix.smem_len : Int))
    (hlen : fbst.fb_fix.smem_len < 4294967296) (hcount : rw_args.count < 4294967296) :
    bytes_to_move fbst rw_args ≤ rw_args.count ∧
    rw_args.offset + (bytes_to_move fbst rw_args : Int) ≤ (fbst.fb_fix.smem_len : Int) ∧
    (rw_args.offset + (rw_args.count : Int) ≤ (fbst.fb_fix.smem_len : Int) →
      bytes_to_move fbst rw_args = rw_args.count) := by
  unfold bytes_to_move to_uint32
  split
  · refine ⟨by omega, by omega, by omega⟩
  · rw [Nat.mod_eq_of_lt hcount]
    refine ⟨le_refl _, by omega, fun _ => rfl⟩

/-- C12 at minor 0 after a successful open (`smem_len` = 16777216), with
offset = 16777217 (one past the end, so offset >= 0) and count = 4: both
`frame_buffer_read` and `frame_buffer_write` return RTEMS_SUCCESSFUL and set
`bytes_moved` to 4294967295, the difference `smem_len - offset` = -1 stored in
32 bits unsigned; this is more than the count, and offset + bytes_moved is
beyond `smem_len`. -/
theorem C12_bytes_moved_past_the_end :
    example_opened_driver.fb_cirrus.fb_fix.smem_len = 16777216 ∧
    0 ≤ (example_rw_args 16777217 4).offset ∧
    (example_rw_args 16777217 4).count = 4 ∧
    (frame_buffer_read 0 0 (example_rw_args 16777217 4) example_opened_driver).1 =
      rtems_status_code.RTEMS_SUCCESSFUL ∧
    (frame_buffer_read 0 0 (example_rw_args 16777217 4) example_opened_driver).2.2.bytes_moved
      = 4294967295 ∧
    (frame_buffer_write 0 0 (example_rw_args 16777217 4) example_opened_driver).1 =
      rtems_status_code.RTEMS_SUCCESSFUL ∧
    (frame_buffer_write 0 0 (example_rw_args 16777217 4) example_opened_driver).2.2.bytes_moved
      = 4294967295 ∧
    ¬ ((frame_buffer_read 0 0 (example_rw_args 16777217 4)
        example_opened_driver).2.2.bytes_moved ≤ (example_rw_args 16777217 4).count) ∧
    ¬ ((example_rw_args 16777217 4).offset +
        ((frame_buffer_read 0 0 (example_rw_args 16777217 4)
          example_opened_driver).2.2.bytes_moved : Int) ≤
        (example_opened_driver.fb_cirrus.fb_fix.smem_len : Int)) := by
  refine ⟨by decide, by decide, by decide, by decide, by decide, by decide, by decide,
    by decide, by decide⟩

end Rtems
